import Mathlib

/-!
Verification development for the WorldFund browser front end.

The TypeScript service layer (`src/services/AuthService.ts`,
`src/services/CampaignService.ts`, `src/services/WLDPaymentService.ts`)
and the relevant UI logic (`MiniKitProvider.tsx`, `AuthContext.tsx`,
`LandingPage.tsx`, the campaign/donation components) are embedded
shallowly.  Effectful code is modelled as explicit state passing over a
world `W` that records the two `localStorage` session keys and the list
of HTTP requests issued so far; a JavaScript exception is an
`Except.error` carrying the error message.  The behaviour of the remote
backend and of `fetch` is an oracle `NetEnv` mapping the index of each
fetch performed during a run to its outcome.
-/

namespace WF

/-- The two persisted session keys.  `sessionToken` models the
`localStorage` entry `worldfund_session_token` and `walletAddr` models
`worldfund_wallet_address`; `none` means the key is absent, `some v`
that it is present with value `v`. -/
structure Store where
  sessionToken : Option String
  walletAddr : Option String
deriving Repr, DecidableEq

/-- A campaign record as mirrored from the backend JSON
(`CampaignService.ts`); only the fields the verified components read
are kept.  JavaScript numbers are modelled as rationals. -/
structure CampaignRec where
  goal : ℚ
  raised : ℚ
deriving Repr, DecidableEq

/-- A JSON response body, restricted to the fields the services read.
`none` models an absent field (JavaScript `undefined`). -/
structure JsonBody where
  nonce : Option String
  token : Option String
  walletAddress : Option String
  message : Option String
  id : Option String
  campaigns : Option (List CampaignRec)
deriving Repr, DecidableEq

/-- The JSON body with no fields, produced by `.catch(() => ({}))`. -/
def emptyBody : JsonBody := ⟨none, none, none, none, none, none⟩

/-- A body `{ message: m }`, produced by
`.catch(() => ({ message: 'Failed to record donation' }))` in
`WLDPaymentService.donateWLD`. -/
def msgOnlyBody (m : String) : JsonBody := ⟨none, none, none, some m, none, none⟩

/-- An HTTP request as built by the service layer: the path appended to
the configured API base, the HTTP method, and the header list in the
order the source adds them. -/
structure Request where
  path : String
  method : String
  headers : List (String × String)
deriving Repr, DecidableEq

/-- Outcome of one `fetch` call, decided by the environment:
the promise resolves with an ok (2xx) response, resolves with a non-ok
response, or rejects (network error).  `body = none` models a response
body that `res.json()` fails to parse. -/
inductive FetchOutcome where
  | ok (status : Nat) (body : Option JsonBody)
  | httpError (status : Nat) (body : Option JsonBody)
  | networkError (msg : String)
deriving Repr, DecidableEq

/-- A resolved `fetch` response as the code reads it: `ok`, `status`,
and the parse result of its body. -/
structure Response where
  ok : Bool
  status : Nat
  body : Option JsonBody
deriving Repr, DecidableEq

/-- The mutable world visible to the embedded code: the session store
and the trace of HTTP requests issued so far during the run. -/
structure W where
  store : Store
  requests : List Request
deriving Repr, DecidableEq

/-- The network oracle: outcome of the `n`-th fetch of a run. -/
def NetEnv := Nat → FetchOutcome

/-- State-and-exception monad for the embedded JavaScript: a
computation transforms the world and either returns a value or throws
an error message.  State changes made before a throw persist, as they
do in the browser. -/
def JsM (α : Type) : Type := W → Except String α × W

namespace JsM

/-- Return a value, leaving the world unchanged. -/
def pure {α : Type} (a : α) : JsM α := fun w => (Except.ok a, w)

/-- Sequencing: run `x`; on a thrown error skip `f`, as `await` does. -/
def bind {α β : Type} (x : JsM α) (f : α → JsM β) : JsM β := fun w =>
  match x w with
  | (Except.ok a, w2) => f a w2
  | (Except.error e, w2) => (Except.error e, w2)

/-- Throw a JavaScript error carrying message `msg`. -/
def throwJs {α : Type} (msg : String) : JsM α := fun w => (Except.error msg, w)

/-- A `try { x } catch (e) { h e }` block. -/
def tryCatch {α : Type} (x : JsM α) (h : String → JsM α) : JsM α := fun w =>
  match x w with
  | (Except.ok a, w2) => (Except.ok a, w2)
  | (Except.error e, w2) => h e w2

/-- Lift a pure `Except` (a non-stateful computation that may throw)
into the monad. -/
def ofExcept {α : Type} (x : Except String α) : JsM α := fun w => (x, w)

end JsM

/-- JavaScript truthiness of an optional string: present and
non-empty. -/
def truthyStr : Option String → Bool
  | some s => s != ""
  | none => false

/-- JavaScript `e.message || fallback` on an error message. -/
def strOr (e fallback : String) : String := if e = "" then fallback else e

/-- JavaScript `body.message || fallback` on a parsed error body. -/
def messageOr (b : JsonBody) (fallback : String) : String :=
  match b.message with
  | some m => strOr m fallback
  | none => fallback

/-- JavaScript `x || null` on an optional string read from storage:
the empty string collapses to `null`. -/
def orNull : Option String → Option String
  | some s => if s = "" then none else some s
  | none => none

/-- Issue a `fetch`.  The request is appended to the trace; the
environment decides the outcome of this (the `n`-th) fetch.  A network
error makes the awaited `fetch` throw. -/
def doFetch (env : NetEnv) (req : Request) : JsM Response := fun w =>
  let w2 : W := ⟨w.store, w.requests ++ [req]⟩
  match env w.requests.length with
  | FetchOutcome.ok st b => (Except.ok ⟨true, st, b⟩, w2)
  | FetchOutcome.httpError st b => (Except.ok ⟨false, st, b⟩, w2)
  | FetchOutcome.networkError m => (Except.error m, w2)

/-- The message of the exception `res.json()` throws on an unparseable
body (a browser `SyntaxError`; the exact text is irrelevant to the
claims). -/
def jsonErrMsg : String := "Unexpected token in JSON"

/-- Model of `await res.json()`: throws when the body does not parse. -/
def jsonOf (res : Response) : JsM JsonBody := fun w =>
  match res.body with
  | some b => (Except.ok b, w)
  | none => (Except.error jsonErrMsg, w)

/-- Model of `await res.json().catch(() => ({}))`: an unparseable body becomes
the empty object. -/
def jsonOrEmpty (res : Response) : JsM JsonBody := fun w =>
  (Except.ok (match res.body with | some b => b | none => emptyBody), w)

/-- Model of `await res.json().catch(() => ({ message: m }))`. -/
def jsonOrMsg (res : Response) (m : String) : JsM JsonBody := fun w =>
  (Except.ok (match res.body with | some b => b | none => msgOnlyBody m), w)

/-- Model of `localStorage.setItem('worldfund_session_token', t)`. -/
def setTokenKey (t : String) : JsM Unit := fun w =>
  (Except.ok (), ⟨⟨some t, w.store.walletAddr⟩, w.requests⟩)

/-- Model of `localStorage.setItem('worldfund_wallet_address', a)`. -/
def setWalletKey (a : String) : JsM Unit := fun w =>
  (Except.ok (), ⟨⟨w.store.sessionToken, some a⟩, w.requests⟩)

/-- Model of `localStorage.removeItem` on both session keys, as `logout` and
`clearStoredSessionData` do. -/
def removeSessionKeys : JsM Unit := fun w =>
  (Except.ok (), ⟨⟨none, none⟩, w.requests⟩)

end WF

namespace WF

/-- Result of `AuthService.getNonce`:
`{ success: boolean; nonce?: string; error?: string }`. -/
structure NonceResult where
  success : Bool
  nonce : Option String
  error : Option String
deriving Repr, DecidableEq

/-- Result of `AuthService.verifyWalletSignature`:
`{ success: boolean; token?: string; walletAddress?: string; error?: string }`. -/
structure VerifyResult where
  success : Bool
  token : Option String
  walletAddress : Option String
  error : Option String
deriving Repr, DecidableEq

/-- Result of the methods that return `{ success: boolean; error?: string }`. -/
structure SimpleResult where
  success : Bool
  error : Option String
deriving Repr, DecidableEq

/-- Result of `AuthService.checkAuthStatus`. -/
structure AuthStatus where
  isAuthenticated : Bool
  token : Option String
  walletAddress : Option String
deriving Repr, DecidableEq

/-- The header list `AuthService.getHeaders(includeAuth)` builds from
the store: always a JSON content type; `x-api-key` when the service's
`API_KEY` is truthy; `Authorization` only when `includeAuth` and a
truthy token is stored. -/
def AuthService.headersFor (apiKey : Option String) (includeAuth : Bool)
    (store : Store) : List (String × String) :=
  let h1 : List (String × String) := [("Content-Type", "application/json")]
  let h2 := if truthyStr apiKey then h1 ++ [("x-api-key", apiKey.getD "")] else h1
  if includeAuth && truthyStr store.sessionToken then
    h2 ++ [("Authorization", "Bearer " ++ store.sessionToken.getD "")]
  else h2

/-- Model of `AuthService.getHeaders(includeAuth)` as a stateful read of
`localStorage`. -/
def AuthService.getHeaders (apiKey : Option String) (includeAuth : Bool) :
    JsM (List (String × String)) := fun w =>
  (Except.ok (AuthService.headersFor apiKey includeAuth w.store), w)

/-- Model of `AuthService.getNonce`: GET `/auth/nonce` without auth header; a
non-ok response or a missing/empty `nonce` field yields
`success: false` with an error message; network errors are caught. -/
def AuthService.getNonce (apiKey : Option String) (env : NetEnv) : JsM NonceResult :=
  JsM.tryCatch
    (JsM.bind (AuthService.getHeaders apiKey false) (fun headers =>
     JsM.bind (doFetch env ⟨"/auth/nonce", "GET", headers⟩) (fun res =>
       if !res.ok then
         JsM.bind (jsonOrEmpty res) (fun errorBody =>
           JsM.pure ⟨false, none,
             some (messageOr errorBody
               ("Failed to fetch nonce (" ++ toString res.status ++ ")"))⟩)
       else
         JsM.bind (jsonOf res) (fun data =>
           if truthyStr data.nonce then
             JsM.pure ⟨true, data.nonce, none⟩
           else
             JsM.pure ⟨false, none, some "Nonce not found in response"⟩))))
    (fun e => JsM.pure ⟨false, none, some (strOr e "Network error while fetching nonce")⟩)

/-- The wallet payload message: absent, a string to be JSON-parsed, or
an already-parsed object (the code handles both shapes). -/
inductive MessageVal where
  | undef
  | str (s : String)
  | obj (nonce : Option String)
deriving Repr, DecidableEq

/-- The payload MiniKit's `walletAuth` resolves with, as the code reads
it: a `status`, an optional `error_code`, and the signed message. -/
structure WalletPayload where
  status : String
  errorCode : Option String
  message : MessageVal
deriving Repr, DecidableEq

/-- Model of `AuthService.verifyWalletSignature`: POST `/auth/verify-signature`
without auth header; on an ok response containing truthy `token` and
`walletAddress` it persists both session keys and succeeds; every
other outcome leaves the store untouched and fails with an error. -/
def AuthService.verifyWalletSignature (apiKey : Option String) (env : NetEnv)
    (payload : WalletPayload) (nonce : String) : JsM VerifyResult :=
  JsM.tryCatch
    (JsM.bind (AuthService.getHeaders apiKey false) (fun headers =>
     JsM.bind (doFetch env ⟨"/auth/verify-signature", "POST", headers⟩) (fun res =>
       if !res.ok then
         JsM.bind (jsonOrEmpty res) (fun errorBody =>
           JsM.pure ⟨false, none, none,
             some (messageOr errorBody
               ("Verification failed (" ++ toString res.status ++ ")"))⟩)
       else
         JsM.bind (jsonOf res) (fun data =>
           if truthyStr data.token && truthyStr data.walletAddress then
             JsM.bind (setTokenKey (data.token.getD "")) (fun _ =>
             JsM.bind (setWalletKey (data.walletAddress.getD "")) (fun _ =>
               JsM.pure ⟨true, data.token, data.walletAddress, none⟩))
           else
             JsM.pure ⟨false, none, none,
               some "Token or wallet address missing from response"⟩))))
    (fun e => JsM.pure ⟨false, none, none, some (strOr e "Network error during verification")⟩)

/-- Model of `AuthService.verifyWorldIdProof`: POST `/verify-worldid` with the
auth header included. -/
def AuthService.verifyWorldIdProof (apiKey : Option String) (env : NetEnv) :
    JsM SimpleResult :=
  JsM.tryCatch
    (JsM.bind (AuthService.getHeaders apiKey true) (fun headers =>
     JsM.bind (doFetch env ⟨"/verify-worldid", "POST", headers⟩) (fun res =>
       if !res.ok then
         JsM.bind (jsonOrEmpty res) (fun errorBody =>
           JsM.pure ⟨false,
             some (messageOr errorBody
               ("Verification failed (" ++ toString res.status ++ ")"))⟩)
       else
         JsM.pure ⟨true, none⟩)))
    (fun e => JsM.pure ⟨false, some (strOr e "Network error during verification")⟩)

/-- Model of `AuthService.logout`: clears both session keys locally (no network
call) and reports success. -/
def AuthService.logout : JsM SimpleResult :=
  JsM.tryCatch
    (JsM.bind removeSessionKeys (fun _ => JsM.pure ⟨true, none⟩))
    (fun e => JsM.pure ⟨false, some (strOr e "Logout failed")⟩)

/-- Model of `AuthService.checkAuthStatus`: reads both keys;
`isAuthenticated = Boolean(token && walletAddress)` and each returned
field is `value || null`. -/
def AuthService.checkAuthStatus : JsM AuthStatus := fun w =>
  let t := w.store.sessionToken
  let a := w.store.walletAddr
  (Except.ok ⟨truthyStr t && truthyStr a, orNull t, orNull a⟩, w)

/-- JavaScript `String.prototype.split('.')` on the character list:
splits at every dot, keeping empty segments. -/
def splitDotChars : List Char → List (List Char)
  | [] => [[]]
  | c :: rest =>
      if c = '.' then [] :: splitDotChars rest
      else
        match splitDotChars rest with
        | [] => [[c]]
        | s :: ss => (c :: s) :: ss

/-- JavaScript `token.split('.')` (the browser builtin the code calls),
modelled executably. -/
def splitDot (s : String) : List String :=
  (splitDotChars s.data).map (fun l => String.mk l)

/-- The decoded JWT payload, restricted to the fields
`AuthService.verifyToken` reads.  `exp` is modelled as an integer
(seconds). -/
structure JwtPayload where
  exp : Option Int
  walletAddress : Option String
deriving Repr, DecidableEq

/-- Result of `AuthService.verifyToken`:
`{ isValid: boolean; error?: string; walletAddress?: string }`. -/
structure TokenCheck where
  isValid : Bool
  error : Option String
  walletAddress : Option String
deriving Repr, DecidableEq

/-- Model of `AuthService.verifyToken`.  The browser builtins `atob` and
`JSON.parse` are not part of this repository and are passed as oracles
returning `none` where the builtin would throw; `now` is
`Date.now()` in milliseconds.  The token must split on `'.'` into
exactly three parts with a truthy middle part; the decoded payload is
expired when `exp` is truthy (present and non-zero) and
`exp * 1000 < now`; a truthy `walletAddress` must be present. -/
def AuthService.verifyToken (atobFn : String → Option String)
    (parseJwt : String → Option JwtPayload) (now : Int) (token : String) : TokenCheck :=
  let parts := splitDot token
  if parts.length ≠ 3 then ⟨false, some "Invalid token format", none⟩
  else
    match parts[1]? with
    | none => ⟨false, some "Invalid token format", none⟩
    | some payloadPart =>
      if payloadPart = "" then ⟨false, some "Invalid token format", none⟩
      else
        match atobFn payloadPart with
        | none => ⟨false, some "Invalid character in base64 string", none⟩
        | some decoded =>
          match parseJwt decoded with
          | none => ⟨false, some jsonErrMsg, none⟩
          | some payload =>
            if (match payload.exp with
                | some e => e ≠ 0 && e * 1000 < now
                | none => false) then
              ⟨false, some "Token expired", none⟩
            else if truthyStr payload.walletAddress then
              ⟨true, none, payload.walletAddress⟩
            else
              ⟨false, some "Token missing wallet address", none⟩

end WF

namespace WF

/-- The payload for creating/updating a campaign (serialized into the
request body, which the claims do not inspect). -/
structure CampaignPayload where
  title : String
  description : Option String
  goal : ℚ
  image : Option String
deriving Repr, DecidableEq

/-- Result of `CampaignService.createCampaign`. -/
structure CreateResult where
  success : Bool
  id : Option String
  error : Option String
deriving Repr, DecidableEq

/-- Result of `CampaignService.fetchAllCampaigns` and
`fetchUserCampaigns`. -/
structure CampaignsResult where
  success : Bool
  campaigns : Option (List CampaignRec)
  error : Option String
deriving Repr, DecidableEq

/-- Result of `CampaignService.fetchCampaign`; the campaign is the
whole parsed response body. -/
structure CampaignResult where
  success : Bool
  campaign : Option JsonBody
  error : Option String
deriving Repr, DecidableEq

/-- Model of `CampaignService.getHeaders`: JSON content type; `Authorization`
when `authService.checkAuthStatus()` returns a token; `x-api-key` when
the service's `API_KEY` is truthy (added after `Authorization` here,
unlike in `AuthService`). -/
def CampaignService.headersFor (apiKey : Option String) (store : Store) :
    List (String × String) :=
  let h1 : List (String × String) := [("Content-Type", "application/json")]
  let h2 := match orNull store.sessionToken with
    | some t => h1 ++ [("Authorization", "Bearer " ++ t)]
    | none => h1
  if truthyStr apiKey then h2 ++ [("x-api-key", apiKey.getD "")] else h2

/-- Model of `CampaignService.getHeaders` as a stateful read through
`authService.checkAuthStatus`. -/
def CampaignService.getHeaders (apiKey : Option String) :
    JsM (List (String × String)) :=
  JsM.bind AuthService.checkAuthStatus (fun st =>
    JsM.pure (let h1 : List (String × String) := [("Content-Type", "application/json")]
              let h2 := match st.token with
                | some t => h1 ++ [("Authorization", "Bearer " ++ t)]
                | none => h1
              if truthyStr apiKey then h2 ++ [("x-api-key", apiKey.getD "")] else h2))

/-- Model of `CampaignService.createCampaign`: POST `/campaigns`; a non-ok
response throws inside the try (caught into `success: false`); an ok
response succeeds with the body's `id` even if the body failed to
parse (the parse error is swallowed by `.catch(() => ({}))`). -/
def CampaignService.createCampaign (apiKey : Option String) (env : NetEnv)
    (payload : CampaignPayload) : JsM CreateResult :=
  JsM.tryCatch
    (JsM.bind (CampaignService.getHeaders apiKey) (fun headers =>
     JsM.bind (doFetch env ⟨"/campaigns", "POST", headers⟩) (fun res =>
     JsM.bind (jsonOrEmpty res) (fun body =>
       if !res.ok then
         JsM.throwJs (messageOr body ("Failed to create campaign (" ++ toString res.status ++ ")"))
       else
         JsM.pure ⟨true, body.id, none⟩))))
    (fun e => JsM.pure ⟨false, none, some (strOr e "Failed to create campaign")⟩)

/-- Model of `CampaignService.fetchAllCampaigns`: GET `/campaigns`; an ok
response must parse (`res.json()` without `.catch`) and the result
passes `data.campaigns` through unvalidated. -/
def CampaignService.fetchAllCampaigns (apiKey : Option String) (env : NetEnv) :
    JsM CampaignsResult :=
  JsM.tryCatch
    (JsM.bind (CampaignService.getHeaders apiKey) (fun headers =>
     JsM.bind (doFetch env ⟨"/campaigns", "GET", headers⟩) (fun res =>
       if !res.ok then
         JsM.throwJs ("Failed to fetch campaigns (" ++ toString res.status ++ ")")
       else
         JsM.bind (jsonOf res) (fun data =>
           JsM.pure ⟨true, data.campaigns, none⟩))))
    (fun e => JsM.pure ⟨false, none, some (strOr e "Failed to fetch campaigns")⟩)

/-- Model of `CampaignService.fetchCampaign`: GET `/campaigns/{id}`; the parsed
body is returned whole as the campaign. -/
def CampaignService.fetchCampaign (apiKey : Option String) (env : NetEnv)
    (id : String) : JsM CampaignResult :=
  JsM.tryCatch
    (JsM.bind (CampaignService.getHeaders apiKey) (fun headers =>
     JsM.bind (doFetch env ⟨"/campaigns/" ++ id, "GET", headers⟩) (fun res =>
       if !res.ok then
         JsM.throwJs ("Campaign not found (" ++ toString res.status ++ ")")
       else
         JsM.bind (jsonOf res) (fun campaign =>
           JsM.pure ⟨true, some campaign, none⟩))))
    (fun e => JsM.pure ⟨false, none, some (strOr e "Failed to fetch campaign")⟩)

/-- Model of `CampaignService.updateCampaign`: PUT `/campaigns/{id}`; like
`createCampaign`, an ok response with an unparseable body still
succeeds. -/
def CampaignService.updateCampaign (apiKey : Option String) (env : NetEnv)
    (id : String) : JsM SimpleResult :=
  JsM.tryCatch
    (JsM.bind (CampaignService.getHeaders apiKey) (fun headers =>
     JsM.bind (doFetch env ⟨"/campaigns/" ++ id, "PUT", headers⟩) (fun res =>
     JsM.bind (jsonOrEmpty res) (fun body =>
       if !res.ok then
         JsM.throwJs (messageOr body ("Failed to update campaign (" ++ toString res.status ++ ")"))
       else
         JsM.pure ⟨true, none⟩))))
    (fun e => JsM.pure ⟨false, some (strOr e "Failed to update campaign")⟩)

/-- Model of `CampaignService.deleteCampaign`: DELETE `/campaigns/{id}`. -/
def CampaignService.deleteCampaign (apiKey : Option String) (env : NetEnv)
    (id : String) : JsM SimpleResult :=
  JsM.tryCatch
    (JsM.bind (CampaignService.getHeaders apiKey) (fun headers =>
     JsM.bind (doFetch env ⟨"/campaigns/" ++ id, "DELETE", headers⟩) (fun res =>
     JsM.bind (jsonOrEmpty res) (fun body =>
       if !res.ok then
         JsM.throwJs (messageOr body ("Failed to delete campaign (" ++ toString res.status ++ ")"))
       else
         JsM.pure ⟨true, none⟩))))
    (fun e => JsM.pure ⟨false, some (strOr e "Failed to delete campaign")⟩)

/-- Model of `CampaignService.recordDonation`: POST `/campaigns/{id}/donate`. -/
def CampaignService.recordDonation (apiKey : Option String) (env : NetEnv)
    (campaignId : String) (amount : ℚ) (txHash : String) : JsM SimpleResult :=
  JsM.tryCatch
    (JsM.bind (CampaignService.getHeaders apiKey) (fun headers =>
     JsM.bind (doFetch env ⟨"/campaigns/" ++ campaignId ++ "/donate", "POST", headers⟩) (fun res =>
     JsM.bind (jsonOrEmpty res) (fun body =>
       if !res.ok then
         JsM.throwJs (messageOr body ("Failed to record donation (" ++ toString res.status ++ ")"))
       else
         JsM.pure ⟨true, none⟩))))
    (fun e => JsM.pure ⟨false, some (strOr e "Failed to record donation")⟩)

/-- Model of `CampaignService.fetchUserCampaigns`: GET
`/users/{address}/campaigns`. -/
def CampaignService.fetchUserCampaigns (apiKey : Option String) (env : NetEnv)
    (walletAddress : String) : JsM CampaignsResult :=
  JsM.tryCatch
    (JsM.bind (CampaignService.getHeaders apiKey) (fun headers =>
     JsM.bind (doFetch env ⟨"/users/" ++ walletAddress ++ "/campaigns", "GET", headers⟩) (fun res =>
       if !res.ok then
         JsM.throwJs ("Failed to fetch user campaigns (" ++ toString res.status ++ ")")
       else
         JsM.bind (jsonOf res) (fun data =>
           JsM.pure ⟨true, data.campaigns, none⟩))))
    (fun e => JsM.pure ⟨false, none, some (strOr e "Failed to fetch user campaigns")⟩)

/-- Model of `WLDPaymentService.getHeaders`: JSON content type; `Authorization`
when a token is stored; `x-api-key` only from `VITE_WORLD_APP_API`
(this service has no fallback key). -/
def WLDPaymentService.headersFor (worldAppApi : Option String) (store : Store) :
    List (String × String) :=
  let h1 : List (String × String) := [("Content-Type", "application/json")]
  let h2 := match orNull store.sessionToken with
    | some t => h1 ++ [("Authorization", "Bearer " ++ t)]
    | none => h1
  if truthyStr worldAppApi then h2 ++ [("x-api-key", worldAppApi.getD "")] else h2

/-- Model of `WLDPaymentService.getHeaders` as a stateful read through
`authService.checkAuthStatus`. -/
def WLDPaymentService.getHeaders (worldAppApi : Option String) :
    JsM (List (String × String)) :=
  JsM.bind AuthService.checkAuthStatus (fun st =>
    JsM.pure (let h1 : List (String × String) := [("Content-Type", "application/json")]
              let h2 := match st.token with
                | some t => h1 ++ [("Authorization", "Bearer " ++ t)]
                | none => h1
              if truthyStr worldAppApi then h2 ++ [("x-api-key", worldAppApi.getD "")] else h2))

/-- Model of `WLDPaymentService.getApiBase`: throws when `VITE_AMPLIFY_API` is
not configured (falsy). -/
def WLDPaymentService.getApiBase (amplifyApi : Option String) : JsM String :=
  if truthyStr amplifyApi then JsM.pure (amplifyApi.getD "")
  else JsM.throwJs "Backend API URL is not configured"

/-- Model of `WLDPaymentService.donateWLD`: POST `/campaigns/{id}/donate`; on an
ok response the body must parse (`await response.json()` with no
`.catch`); every failure is caught into `success: false` with an
error message. -/
def WLDPaymentService.donateWLD (worldAppApi amplifyApi : Option String)
    (env : NetEnv) (campaignId : String) (amount : ℚ) (txHash : String) :
    JsM SimpleResult :=
  JsM.tryCatch
    (JsM.bind (WLDPaymentService.getApiBase amplifyApi) (fun _ =>
     JsM.bind (WLDPaymentService.getHeaders worldAppApi) (fun headers =>
     JsM.bind (doFetch env ⟨"/campaigns/" ++ campaignId ++ "/donate", "POST", headers⟩) (fun res =>
       if !res.ok then
         JsM.bind (jsonOrMsg res "Failed to record donation") (fun errorData =>
           JsM.throwJs (messageOr errorData "Failed to record donation"))
       else
         JsM.bind (jsonOf res) (fun _ =>
           JsM.pure ⟨true, none⟩)))))
    (fun e => JsM.pure ⟨false, some (strOr e "Failed to donate WLD")⟩)

/-- Result of `WLDPaymentService.getDonationInstructions`. -/
structure InstructionsResult where
  campaignAddress : String
  instructions : List String
  minAmount : ℚ
deriving Repr, DecidableEq

/-- Model of `WLDPaymentService.getDonationInstructions`: returns fixed mock
data, no network call and no failure path. -/
def WLDPaymentService.getDonationInstructions (campaignId : String) :
    InstructionsResult :=
  ⟨"0x5816E346C014e4BE06bA48de8c0Bf08A61f9033F",
   ["Send WLD tokens to the campaign address using your wallet",
    "Copy the transaction hash once the transaction is confirmed",
    "Submit the transaction hash and amount to record your donation"],
   1 / 100⟩

/-- Transaction status enum of `WLDPaymentService`. -/
inductive TransactionStatus where
  | pending
  | confirmed
  | failed
deriving Repr, DecidableEq

/-- A WLD transaction record. -/
structure WLDTransaction where
  txHash : String
  fromAddr : String
  toAddr : String
  amount : ℚ
  status : TransactionStatus
  timestamp : Int
deriving Repr, DecidableEq

/-- Result of `WLDPaymentService.verifyTransaction`. -/
structure VerifyTxResult where
  success : Bool
  transaction : Option WLDTransaction
  error : Option String
deriving Repr, DecidableEq

/-- Model of `WLDPaymentService.verifyTransaction`: simulates a confirmed
transaction from random data (`randHex`, `randAmount`) and the clock
`now`; it always succeeds and never throws. -/
def WLDPaymentService.verifyTransaction (randHex : String) (randAmount : ℚ)
    (now : Int) (txHash : String) : VerifyTxResult :=
  ⟨true,
   some ⟨txHash, "0x" ++ randHex, "0x5816E346C014e4BE06bA48de8c0Bf08A61f9033F",
         randAmount, TransactionStatus.confirmed, now⟩,
   none⟩

end WF

namespace WF

/-- Model of `AuthContext.storeSessionData`: writes both session keys. -/
def storeSessionData (token address : String) : JsM Unit :=
  JsM.bind (setTokenKey token) (fun _ => setWalletKey address)

/-- Model of `AuthContext.clearStoredSessionData`: removes both session keys. -/
def clearStoredSessionData : JsM Unit := removeSessionKeys

/-- Model of `AuthContext.getStoredSessionData`: reads both keys. -/
def getStoredSessionData : JsM (Option String × Option String) := fun w =>
  (Except.ok (w.store.sessionToken, w.store.walletAddr), w)

/-- Model of `AuthContext.login`: stores the session data (the in-memory React
state update and navigation are outside the embedded state). -/
def loginCtx (token address : String) : JsM Unit := storeSessionData token address

/-- Model of `AuthContext.getNonceForMiniKit`: fetches a nonce through
`authService.getNonce` and throws unless the result is successful with
a truthy nonce. -/
def getNonceForMiniKit (apiKey : Option String) (env : NetEnv) : JsM String :=
  JsM.bind (AuthService.getNonce apiKey env) (fun nonceResult =>
    if nonceResult.success && truthyStr nonceResult.nonce then
      JsM.pure (nonceResult.nonce.getD "")
    else
      JsM.throwJs (strOr (nonceResult.error.getD "") "Failed to fetch nonce"))

/-- Nonce extraction in `AuthContext.loginWithWallet`: a missing (falsy)
`message` throws; a string message goes through `JSON.parse` (the
oracle `parseMsg`, `none` where the builtin would throw); the extracted
value is `messageObj.nonce || ''`. -/
def extractSignedNonce (parseMsg : String → Option (Option String)) :
    MessageVal → Except String String
  | MessageVal.undef => Except.error "Invalid authentication payload: message is missing"
  | MessageVal.str s =>
      if s = "" then Except.error "Invalid authentication payload: message is missing"
      else
        match parseMsg s with
        | none => Except.error jsonErrMsg
        | some nonceField => Except.ok (nonceField.getD "")
  | MessageVal.obj nonceField => Except.ok (nonceField.getD "")

/-- Model of `AuthContext.loginWithWallet`: extracts the signed nonce from the
wallet payload, throws before any network call when it is missing,
otherwise posts the signature for verification and on success stores
the session via `login`; on any failure it rethrows. -/
def loginWithWallet (apiKey : Option String) (env : NetEnv)
    (parseMsg : String → Option (Option String)) (authResult : WalletPayload) :
    JsM Unit :=
  JsM.bind (JsM.ofExcept (extractSignedNonce parseMsg authResult.message)) (fun signedNonce =>
    if signedNonce = "" then
      JsM.throwJs "Nonce missing in signed message from wallet"
    else
      JsM.bind (AuthService.verifyWalletSignature apiKey env authResult signedNonce)
        (fun verifyResult =>
          if verifyResult.success && truthyStr verifyResult.walletAddress &&
              truthyStr verifyResult.token then
            loginCtx (verifyResult.token.getD "") (verifyResult.walletAddress.getD "")
          else
            JsM.throwJs (strOr (verifyResult.error.getD "")
              "Wallet signature verification failed")))

/-- The MiniKit SDK environment seen by `triggerMiniKitWalletAuth`:
whether the global exists, whether `isInstalled()` reports true,
whether `install` succeeds when needed, whether the `walletAuth`
command exists, and what `walletAuth` resolves with (`none` means the
command itself throws, `some none` a result without `finalPayload`). -/
structure MiniKitEnv where
  available : Bool
  installed : Bool
  installOk : Bool
  commandsAvailable : Bool
  authResult : Option (Option WalletPayload)
deriving Repr, DecidableEq

/-- Model of `triggerMiniKitWalletAuth` (from `MiniKitProvider.tsx`): validates
the server nonce (throws when falsy or shorter than 8 characters),
checks MiniKit availability/installation, and runs `walletAuth` with
exactly the provided nonce.  The first component is the thrown error
or the success payload; the second is the nonce passed to the
`walletAuth` command (`none` when the command was never invoked). -/
def triggerMiniKitWalletAuth (mk : MiniKitEnv) (serverNonce : String) :
    Except String WalletPayload × Option String :=
  if serverNonce = "" || serverNonce.length < 8 then
    (Except.error "A valid server-issued nonce is required to trigger wallet auth.", none)
  else if !mk.available then
    (Except.error "MiniKit is not available", none)
  else if !mk.installed && !mk.installOk then
    (Except.error "Failed to initialize MiniKit", none)
  else if !mk.commandsAvailable then
    (Except.error "MiniKit wallet auth commands not available", none)
  else
    match mk.authResult with
    | none => (Except.error "Error during wallet auth process", some serverNonce)
    | some none =>
        (Except.error "MiniKit wallet authentication did not complete successfully (no payload). User might have cancelled.",
         some serverNonce)
    | some (some finalPayload) =>
        if finalPayload.status ≠ "success" then
          (Except.error ("MiniKit auth failed: " ++
             strOr (finalPayload.errorCode.getD "") (strOr finalPayload.status "unknown MiniKit error")),
           some serverNonce)
        else
          (Except.ok finalPayload, some serverNonce)

/-- The body of `window.__triggerWalletAuth` installed by
`MiniKitProvider`: when an attempt is already in flight
(`isAttemptingAuthViaWindow`) it returns `false` immediately without
doing anything; otherwise it fetches a nonce, runs the MiniKit wallet
auth, and completes the login, returning `true` on success and `false`
on any caught error. -/
def windowTriggerWalletAuth (isAttemptingAuthViaWindow : Bool)
    (apiKey : Option String) (env : NetEnv) (mk : MiniKitEnv)
    (parseMsg : String → Option (Option String)) : W → Bool × W := fun w =>
  if isAttemptingAuthViaWindow then (false, w)
  else
    match (JsM.bind (getNonceForMiniKit apiKey env) (fun serverNonce =>
           JsM.bind (JsM.ofExcept (triggerMiniKitWalletAuth mk serverNonce).1) (fun authPayload =>
             loginWithWallet apiKey env parseMsg authPayload))) w with
    | (Except.ok _, w2) => (true, w2)
    | (Except.error _, w2) => (false, w2)

/-- Outcome of `LandingPage.handleConnectWallet`: skipped by the
re-entrancy guard, completed, or failed with the page error it sets. -/
inductive ConnectOutcome where
  | skipped
  | completed
  | failed (pageError : String)
deriving Repr, DecidableEq

/-- Model of `LandingPage.handleConnectWallet`: returns without acting when a
connection attempt is already underway or auth is loading; in dev mode
with the window trigger installed it delegates to
`window.__triggerWalletAuth`, otherwise it runs the production flow
(nonce → MiniKit auth → login). -/
def handleConnectWallet (isConnectingWallet authIsLoading : Bool)
    (dev hasWindowTrigger windowInProgress : Bool) (apiKey : Option String)
    (env : NetEnv) (mk : MiniKitEnv)
    (parseMsg : String → Option (Option String)) : W → ConnectOutcome × W := fun w =>
  if isConnectingWallet || authIsLoading then (ConnectOutcome.skipped, w)
  else if dev && hasWindowTrigger then
    match windowTriggerWalletAuth windowInProgress apiKey env mk parseMsg w with
    | (true, w2) => (ConnectOutcome.completed, w2)
    | (false, w2) =>
        (ConnectOutcome.failed "Wallet authentication via debug trigger failed. Check console.", w2)
  else
    match (JsM.bind (getNonceForMiniKit apiKey env) (fun serverNonce =>
           JsM.bind (JsM.ofExcept (triggerMiniKitWalletAuth mk serverNonce).1) (fun authPayload =>
             loginWithWallet apiKey env parseMsg authPayload))) w with
    | (Except.ok _, w2) => (ConnectOutcome.completed, w2)
    | (Except.error e, w2) =>
        (ConnectOutcome.failed (strOr e "An unknown error occurred during wallet connection."), w2)

/-- The `disabled` attribute of the submit button of
`WLDDonationForm`: disabled exactly while the donation request is in
flight. -/
def WLDDonationForm.submitDisabled (loading : Bool) : Bool := loading

/-- The `disabled` attribute of the save button of
`EditCampaignForm`: disabled exactly while the update request is in
flight. -/
def EditCampaignForm.submitDisabled (submitting : Bool) : Bool := submitting

/-- The progress percentage rendered by `CampaignCard`:
`Math.min(Math.round((raised / goal) * 100), 100)`.  JavaScript
`Math.round` is round-half-up, which is Mathlib's `round` on `ℚ`. -/
def CampaignCard.progressPercentage (c : CampaignRec) : ℤ :=
  min (round (c.raised / c.goal * 100)) 100

/-- The progress percentage rendered per row by `CampaignTracker`
(same expression as `CampaignCard`). -/
def CampaignTracker.progressPercentage (c : CampaignRec) : ℤ :=
  min (round (c.raised / c.goal * 100)) 100

/-- The progress percentage rendered by `CampaignDetail`
(same expression as `CampaignCard`). -/
def CampaignDetail.progressPercentage (c : CampaignRec) : ℤ :=
  min (round (c.raised / c.goal * 100)) 100

end WF

namespace WF

/-- The world after issuing one request. -/
def afterReq (w : W) (req : Request) : W := ⟨w.store, w.requests ++ [req]⟩

/-- The endpoint paths the specification lists, relative to the API
base; `{id}` and `{address}` segments are existentially quantified. -/
def allowedPath (p : String) : Prop :=
  p = "/auth/nonce" ∨ p = "/auth/verify-signature" ∨ p = "/verify-worldid" ∨
  p = "/campaigns" ∨ (∃ id, p = "/campaigns/" ++ id) ∨
  (∃ id, p = "/campaigns/" ++ id ++ "/donate") ∨
  (∃ a, p = "/users/" ++ a ++ "/campaigns")

/-- A request carries a header with the given name. -/
def hasHeaderName (req : Request) (n : String) : Prop := ∃ v, (n, v) ∈ req.headers

/-- A request carries the given header exactly. -/
def hasHeader (req : Request) (n v : String) : Prop := (n, v) ∈ req.headers

/-- The validity predicate claim C10 states for `verifyToken`: three
parts, parseable middle, `exp` (whenever present) not in the past, and
a `walletAddress` field present. -/
def tokenClaimValidOrig (atobFn : String → Option String)
    (parseJwt : String → Option JwtPayload) (now : Int) (token : String) : Prop :=
  (splitDot token).length = 3 ∧
  ∃ mid, (splitDot token)[1]? = some mid ∧
  ∃ d, atobFn mid = some d ∧
  ∃ p, parseJwt d = some p ∧
    (∀ e, p.exp = some e → now ≤ e * 1000) ∧
    (∃ a, p.walletAddress = some a)

/-- The validity predicate `verifyToken` actually decides: like
`tokenClaimValidOrig` but the middle part must be non-empty, a zero
`exp` is ignored (JavaScript truthiness), and `walletAddress` must be
non-empty. -/
def tokenClaimValid (atobFn : String → Option String)
    (parseJwt : String → Option JwtPayload) (now : Int) (token : String) : Prop :=
  (splitDot token).length = 3 ∧
  ∃ mid, (splitDot token)[1]? = some mid ∧ mid ≠ "" ∧
  ∃ d, atobFn mid = some d ∧
  ∃ p, parseJwt d = some p ∧
    (∀ e, p.exp = some e → e = 0 ∨ now ≤ e * 1000) ∧
    (∃ a, p.walletAddress = some a ∧ a ≠ "")

/-- An empty world: no session keys, no requests issued. -/
def emptyW : W := ⟨⟨none, none⟩, []⟩

/-- A world with a stored session. -/
def tokenW : W := ⟨⟨some "tok", some "0xabc"⟩, []⟩

/-- A network environment in which every fetch fails. -/
def envNet : NetEnv := fun _ => FetchOutcome.networkError "boom"

/-- A response body carrying a nonce, token and wallet address. -/
def bodyGood : JsonBody := ⟨some "noncenonce", some "tok", some "0xabc", none, some "abc123", none⟩

/-- An environment always answering ok with `bodyGood`. -/
def envOkGood : NetEnv := fun _ => FetchOutcome.ok 200 (some bodyGood)

/-- A response body whose `nonce` field is present but empty. -/
def bodyEmptyNonce : JsonBody := ⟨some "", none, none, none, none, none⟩

/-- An environment always answering ok with `bodyEmptyNonce`. -/
def envOkEmptyNonce : NetEnv := fun _ => FetchOutcome.ok 200 (some bodyEmptyNonce)

/-- An environment always answering ok with an unparseable body. -/
def envOkNoBody : NetEnv := fun _ => FetchOutcome.ok 200 none

/-- A successful wallet payload whose signed message carries a nonce. -/
def samplePayload : WalletPayload := ⟨"success", none, MessageVal.obj (some "noncenonce")⟩

/-- A successful wallet payload whose signed message has no nonce. -/
def payloadNoNonce : WalletPayload := ⟨"success", none, MessageVal.obj none⟩

/-- A MiniKit environment in which everything works and `walletAuth`
resolves with `samplePayload`. -/
def sampleMk : MiniKitEnv := ⟨true, true, true, true, some (some samplePayload)⟩

/-- A message-parse oracle that always fails (irrelevant for object
messages). -/
def sampleParse : String → Option (Option String) := fun _ => none

/-- An `atob` oracle decoding every string to itself. -/
def atobId : String → Option String := fun s => some s

/-- A JWT-parse oracle returning a payload with `exp = 0` for the
document `"p"`. -/
def parseJwtZeroExp : String → Option JwtPayload :=
  fun s => if s = "p" then some ⟨some 0, some "0xabc"⟩ else none

/-- The request properties claim C3 asserts for every issued request:
an allowed path, a JSON content type, and the `x-api-key` header
exactly when the service has a truthy API key. -/
def baseReqProps (apiKey : Option String) (req : Request) : Prop :=
  allowedPath req.path ∧ hasHeader req "Content-Type" "application/json" ∧
  (hasHeaderName req "x-api-key" ↔ truthyStr apiKey = true)

theorem CampaignService.campaignGetHeaders_run (apiKey : Option String) (w : W) :
    CampaignService.getHeaders apiKey w =
      (Except.ok (CampaignService.headersFor apiKey w.store), w) := by
  simp only [CampaignService.getHeaders, CampaignService.headersFor, JsM.bind,
    AuthService.checkAuthStatus, JsM.pure]

theorem WLDPaymentService.wldGetHeaders_run (worldAppApi : Option String) (w : W) :
    WLDPaymentService.getHeaders worldAppApi w =
      (Except.ok (WLDPaymentService.headersFor worldAppApi w.store), w) := by
  simp only [WLDPaymentService.getHeaders, WLDPaymentService.headersFor, JsM.bind,
    AuthService.checkAuthStatus, JsM.pure]

end WF

namespace WF

theorem AuthService.getNonce_run (apiKey : Option String) (env : NetEnv) (w : W) :
    AuthService.getNonce apiKey env w =
      (Except.ok (match env w.requests.length with
        | FetchOutcome.networkError m =>
            (⟨false, none, some (strOr m "Network error while fetching nonce")⟩ : NonceResult)
        | FetchOutcome.httpError st b =>
            ⟨false, none, some (messageOr (b.getD emptyBody)
               ("Failed to fetch nonce (" ++ toString st ++ ")"))⟩
        | FetchOutcome.ok _ none =>
            ⟨false, none, some (strOr jsonErrMsg "Network error while fetching nonce")⟩
        | FetchOutcome.ok _ (some data) =>
            if truthyStr data.nonce then ⟨true, data.nonce, none⟩
            else ⟨false, none, some "Nonce not found in response"⟩),
       afterReq w ⟨"/auth/nonce", "GET", AuthService.headersFor apiKey false w.store⟩) := by
  cases h : env w.requests.length with
  | ok st b =>
      cases b with
      | none =>
          simp [AuthService.getNonce, JsM.tryCatch, JsM.bind, JsM.pure,
            AuthService.getHeaders, doFetch, jsonOf, jsonOrEmpty, afterReq, h]
      | some data =>
          by_cases hn : truthyStr data.nonce = true <;>
            simp [AuthService.getNonce, JsM.tryCatch, JsM.bind, JsM.pure,
              AuthService.getHeaders, doFetch, jsonOf, jsonOrEmpty, afterReq, h, hn]
  | httpError st b =>
      cases b <;>
        simp [AuthService.getNonce, JsM.tryCatch, JsM.bind, JsM.pure,
          AuthService.getHeaders, doFetch, jsonOf, jsonOrEmpty, afterReq, h]
  | networkError m =>
      simp [AuthService.getNonce, JsM.tryCatch, JsM.bind, JsM.pure,
        AuthService.getHeaders, doFetch, jsonOf, jsonOrEmpty, afterReq, h]

end WF

namespace WF

theorem AuthService.verifyWalletSignature_run (apiKey : Option String) (env : NetEnv)
    (payload : WalletPayload) (nonce : String) (w : W) :
    AuthService.verifyWalletSignature apiKey env payload nonce w =
      (let req : Request :=
        ⟨"/auth/verify-signature", "POST", AuthService.headersFor apiKey false w.store⟩
       match env w.requests.length with
       | FetchOutcome.networkError m =>
           (Except.ok (⟨false, none, none,
              some (strOr m "Network error during verification")⟩ : VerifyResult),
            afterReq w req)
       | FetchOutcome.httpError st b =>
           (Except.ok ⟨false, none, none,
              some (messageOr (b.getD emptyBody)
                ("Verification failed (" ++ toString st ++ ")"))⟩,
            afterReq w req)
       | FetchOutcome.ok _ none =>
           (Except.ok ⟨false, none, none,
              some (strOr jsonErrMsg "Network error during verification")⟩,
            afterReq w req)
       | FetchOutcome.ok _ (some data) =>
           if truthyStr data.token && truthyStr data.walletAddress then
             (Except.ok ⟨true, data.token, data.walletAddress, none⟩,
              ⟨⟨some (data.token.getD ""), some (data.walletAddress.getD "")⟩,
               w.requests ++ [req]⟩)
           else
             (Except.ok ⟨false, none, none,
                some "Token or wallet address missing from response"⟩,
              afterReq w req)) := by
  cases h : env w.requests.length with
  | ok st b =>
      cases b with
      | none =>
          simp [AuthService.verifyWalletSignature, JsM.tryCatch, JsM.bind, JsM.pure,
            AuthService.getHeaders, doFetch, jsonOf, jsonOrEmpty, afterReq, h]
      | some data =>
          by_cases hn : (truthyStr data.token && truthyStr data.walletAddress) = true <;>
            simp [AuthService.verifyWalletSignature, JsM.tryCatch, JsM.bind, JsM.pure,
              AuthService.getHeaders, doFetch, jsonOf, jsonOrEmpty, afterReq,
              setTokenKey, setWalletKey, h, hn]
  | httpError st b =>
      cases b <;>
        simp [AuthService.verifyWalletSignature, JsM.tryCatch, JsM.bind, JsM.pure,
          AuthService.getHeaders, doFetch, jsonOf, jsonOrEmpty, afterReq, h]
  | networkError m =>
      simp [AuthService.verifyWalletSignature, JsM.tryCatch, JsM.bind, JsM.pure,
        AuthService.getHeaders, doFetch, jsonOf, jsonOrEmpty, afterReq, h]

theorem AuthService.verifyWorldIdProof_run (apiKey : Option String) (env : NetEnv) (w : W) :
    AuthService.verifyWorldIdProof apiKey env w =
      (Except.ok (match env w.requests.length with
        | FetchOutcome.networkError m =>
            (⟨false, some (strOr m "Network error during verification")⟩ : SimpleResult)
        | FetchOutcome.httpError st b =>
            ⟨false, some (messageOr (b.getD emptyBody)
               ("Verification failed (" ++ toString st ++ ")"))⟩
        | FetchOutcome.ok _ _ => ⟨true, none⟩),
       afterReq w ⟨"/verify-worldid", "POST", AuthService.headersFor apiKey true w.store⟩) := by
  cases h : env w.requests.length with
  | ok st b =>
      simp [AuthService.verifyWorldIdProof, JsM.tryCatch, JsM.bind, JsM.pure,
        AuthService.getHeaders, doFetch, jsonOrEmpty, afterReq, h]
  | httpError st b =>
      cases b <;>
        simp [AuthService.verifyWorldIdProof, JsM.tryCatch, JsM.bind, JsM.pure,
          AuthService.getHeaders, doFetch, jsonOrEmpty, afterReq, h]
  | networkError m =>
      simp [AuthService.verifyWorldIdProof, JsM.tryCatch, JsM.bind, JsM.pure,
        AuthService.getHeaders, doFetch, jsonOrEmpty, afterReq, h]

theorem AuthService.logout_run (w : W) :
    AuthService.logout w = (Except.ok ⟨true, none⟩, ⟨⟨none, none⟩, w.requests⟩) := by
  simp [AuthService.logout, JsM.tryCatch, JsM.bind, JsM.pure, removeSessionKeys]

theorem AuthService.checkAuthStatus_run (w : W) :
    AuthService.checkAuthStatus w =
      (Except.ok ⟨truthyStr w.store.sessionToken && truthyStr w.store.walletAddr,
         orNull w.store.sessionToken, orNull w.store.walletAddr⟩, w) := rfl

end WF

namespace WF

theorem CampaignService.createCampaign_run (apiKey : Option String) (env : NetEnv)
    (payload : CampaignPayload) (w : W) :
    CampaignService.createCampaign apiKey env payload w =
      (Except.ok (match env w.requests.length with
        | FetchOutcome.networkError m =>
            (⟨false, none, some (strOr m "Failed to create campaign")⟩ : CreateResult)
        | FetchOutcome.httpError st b =>
            ⟨false, none, some (strOr (messageOr (b.getD emptyBody)
               ("Failed to create campaign (" ++ toString st ++ ")"))
               "Failed to create campaign")⟩
        | FetchOutcome.ok _ b => ⟨true, (b.getD emptyBody).id, none⟩),
       afterReq w ⟨"/campaigns", "POST", CampaignService.headersFor apiKey w.store⟩) := by
  cases h : env w.requests.length with
  | ok st b =>
      cases b <;>
        simp [CampaignService.createCampaign, CampaignService.getHeaders,
          CampaignService.headersFor, AuthService.checkAuthStatus, JsM.tryCatch,
          JsM.bind, JsM.pure, JsM.throwJs, doFetch, jsonOrEmpty, afterReq, h]
  | httpError st b =>
      cases b <;>
        simp [CampaignService.createCampaign, CampaignService.getHeaders,
          CampaignService.headersFor, AuthService.checkAuthStatus, JsM.tryCatch,
          JsM.bind, JsM.pure, JsM.throwJs, doFetch, jsonOrEmpty, afterReq, h]
  | networkError m =>
      simp [CampaignService.createCampaign, CampaignService.getHeaders,
        CampaignService.headersFor, AuthService.checkAuthStatus, JsM.tryCatch,
        JsM.bind, JsM.pure, JsM.throwJs, doFetch, jsonOrEmpty, afterReq, h]

theorem CampaignService.fetchAllCampaigns_run (apiKey : Option String) (env : NetEnv) (w : W) :
    CampaignService.fetchAllCampaigns apiKey env w =
      (Except.ok (match env w.requests.length with
        | FetchOutcome.networkError m =>
            (⟨false, none, some (strOr m "Failed to fetch campaigns")⟩ : CampaignsResult)
        | FetchOutcome.httpError st _ =>
            ⟨false, none, some (strOr ("Failed to fetch campaigns (" ++ toString st ++ ")")
               "Failed to fetch campaigns")⟩
        | FetchOutcome.ok _ none =>
            ⟨false, none, some (strOr jsonErrMsg "Failed to fetch campaigns")⟩
        | FetchOutcome.ok _ (some data) => ⟨true, data.campaigns, none⟩),
       afterReq w ⟨"/campaigns", "GET", CampaignService.headersFor apiKey w.store⟩) := by
  cases h : env w.requests.length with
  | ok st b =>
      cases b <;>
        simp [CampaignService.fetchAllCampaigns, CampaignService.getHeaders,
          CampaignService.headersFor, AuthService.checkAuthStatus, JsM.tryCatch,
          JsM.bind, JsM.pure, JsM.throwJs, doFetch, jsonOf, afterReq, h]
  | httpError st b =>
      simp [CampaignService.fetchAllCampaigns, CampaignService.getHeaders,
        CampaignService.headersFor, AuthService.checkAuthStatus, JsM.tryCatch,
        JsM.bind, JsM.pure, JsM.throwJs, doFetch, jsonOf, afterReq, h]
  | networkError m =>
      simp [CampaignService.fetchAllCampaigns, CampaignService.getHeaders,
        CampaignService.headersFor, AuthService.checkAuthStatus, JsM.tryCatch,
        JsM.bind, JsM.pure, JsM.throwJs, doFetch, jsonOf, afterReq, h]

theorem CampaignService.fetchCampaign_run (apiKey : Option String) (env : NetEnv)
    (id : String) (w : W) :
    CampaignService.fetchCampaign apiKey env id w =
      (Except.ok (match env w.requests.length with
        | FetchOutcome.networkError m =>
            (⟨false, none, some (strOr m "Failed to fetch campaign")⟩ : CampaignResult)
        | FetchOutcome.httpError st _ =>
            ⟨false, none, some (strOr ("Campaign not found (" ++ toString st ++ ")")
               "Failed to fetch campaign")⟩
        | FetchOutcome.ok _ none =>
            ⟨false, none, some (strOr jsonErrMsg "Failed to fetch campaign")⟩
        | FetchOutcome.ok _ (some data) => ⟨true, some data, none⟩),
       afterReq w ⟨"/campaigns/" ++ id, "GET", CampaignService.headersFor apiKey w.store⟩) := by
  cases h : env w.requests.length with
  | ok st b =>
      cases b <;>
        simp [CampaignService.fetchCampaign, CampaignService.getHeaders,
          CampaignService.headersFor, AuthService.checkAuthStatus, JsM.tryCatch,
          JsM.bind, JsM.pure, JsM.throwJs, doFetch, jsonOf, afterReq, h]
  | httpError st b =>
      simp [CampaignService.fetchCampaign, CampaignService.getHeaders,
        CampaignService.headersFor, AuthService.checkAuthStatus, JsM.tryCatch,
        JsM.bind, JsM.pure, JsM.throwJs, doFetch, jsonOf, afterReq, h]
  | networkError m =>
      simp [CampaignService.fetchCampaign, CampaignService.getHeaders,
        CampaignService.headersFor, AuthService.checkAuthStatus, JsM.tryCatch,
        JsM.bind, JsM.pure, JsM.throwJs, doFetch, jsonOf, afterReq, h]

end WF

namespace WF

theorem CampaignService.updateCampaign_run (apiKey : Option String) (env : NetEnv)
    (id : String) (w : W) :
    CampaignService.updateCampaign apiKey env id w =
      (Except.ok (match env w.requests.length with
        | FetchOutcome.networkError m =>
            (⟨false, some (strOr m "Failed to update campaign")⟩ : SimpleResult)
        | FetchOutcome.httpError st b =>
            ⟨false, some (strOr (messageOr (b.getD emptyBody)
               ("Failed to update campaign (" ++ toString st ++ ")"))
               "Failed to update campaign")⟩
        | FetchOutcome.ok _ _ => ⟨true, none⟩),
       afterReq w ⟨"/campaigns/" ++ id, "PUT", CampaignService.headersFor apiKey w.store⟩) := by
  cases h : env w.requests.length with
  | ok st b =>
      cases b <;>
        simp [CampaignService.updateCampaign, CampaignService.getHeaders,
          CampaignService.headersFor, AuthService.checkAuthStatus, JsM.tryCatch,
          JsM.bind, JsM.pure, JsM.throwJs, doFetch, jsonOrEmpty, afterReq, h]
  | httpError st b =>
      cases b <;>
        simp [CampaignService.updateCampaign, CampaignService.getHeaders,
          CampaignService.headersFor, AuthService.checkAuthStatus, JsM.tryCatch,
          JsM.bind, JsM.pure, JsM.throwJs, doFetch, jsonOrEmpty, afterReq, h]
  | networkError m =>
      simp [CampaignService.updateCampaign, CampaignService.getHeaders,
        CampaignService.headersFor, AuthService.checkAuthStatus, JsM.tryCatch,
        JsM.bind, JsM.pure, JsM.throwJs, doFetch, jsonOrEmpty, afterReq, h]

theorem CampaignService.deleteCampaign_run (apiKey : Option String) (env : NetEnv)
    (id : String) (w : W) :
    CampaignService.deleteCampaign apiKey env id w =
      (Except.ok (match env w.requests.length with
        | FetchOutcome.networkError m =>
            (⟨false, some (strOr m "Failed to delete campaign")⟩ : SimpleResult)
        | FetchOutcome.httpError st b =>
            ⟨false, some (strOr (messageOr (b.getD emptyBody)
               ("Failed to delete campaign (" ++ toString st ++ ")"))
               "Failed to delete campaign")⟩
        | FetchOutcome.ok _ _ => ⟨true, none⟩),
       afterReq w ⟨"/campaigns/" ++ id, "DELETE", CampaignService.headersFor apiKey w.store⟩) := by
  cases h : env w.requests.length with
  | ok st b =>
      cases b <;>
        simp [CampaignService.deleteCampaign, CampaignService.getHeaders,
          CampaignService.headersFor, AuthService.checkAuthStatus, JsM.tryCatch,
          JsM.bind, JsM.pure, JsM.throwJs, doFetch, jsonOrEmpty, afterReq, h]
  | httpError st b =>
      cases b <;>
        simp [CampaignService.deleteCampaign, CampaignService.getHeaders,
          CampaignService.headersFor, AuthService.checkAuthStatus, JsM.tryCatch,
          JsM.bind, JsM.pure, JsM.throwJs, doFetch, jsonOrEmpty, afterReq, h]
  | networkError m =>
      simp [CampaignService.deleteCampaign, CampaignService.getHeaders,
        CampaignService.headersFor, AuthService.checkAuthStatus, JsM.tryCatch,
        JsM.bind, JsM.pure, JsM.throwJs, doFetch, jsonOrEmpty, afterReq, h]

theorem CampaignService.recordDonation_run (apiKey : Option String) (env : NetEnv)
    (campaignId : String) (amount : ℚ) (txHash : String) (w : W) :
    CampaignService.recordDonation apiKey env campaignId amount txHash w =
      (Except.ok (match env w.requests.length with
        | FetchOutcome.networkError m =>
            (⟨false, some (strOr m "Failed to record donation")⟩ : SimpleResult)
        | FetchOutcome.httpError st b =>
            ⟨false, some (strOr (messageOr (b.getD emptyBody)
               ("Failed to record donation (" ++ toString st ++ ")"))
               "Failed to record donation")⟩
        | FetchOutcome.ok _ _ => ⟨true, none⟩),
       afterReq w ⟨"/campaigns/" ++ campaignId ++ "/donate", "POST",
         CampaignService.headersFor apiKey w.store⟩) := by
  cases h : env w.requests.length with
  | ok st b =>
      cases b <;>
        simp [CampaignService.recordDonation, CampaignService.getHeaders,
          CampaignService.headersFor, AuthService.checkAuthStatus, JsM.tryCatch,
          JsM.bind, JsM.pure, JsM.throwJs, doFetch, jsonOrEmpty, afterReq, h]
  | httpError st b =>
      cases b <;>
        simp [CampaignService.recordDonation, CampaignService.getHeaders,
          CampaignService.headersFor, AuthService.checkAuthStatus, JsM.tryCatch,
          JsM.bind, JsM.pure, JsM.throwJs, doFetch, jsonOrEmpty, afterReq, h]
  | networkError m =>
      simp [CampaignService.recordDonation, CampaignService.getHeaders,
        CampaignService.headersFor, AuthService.checkAuthStatus, JsM.tryCatch,
        JsM.bind, JsM.pure, JsM.throwJs, doFetch, jsonOrEmpty, afterReq, h]

theorem CampaignService.fetchUserCampaigns_run (apiKey : Option String) (env : NetEnv)
    (walletAddress : String) (w : W) :
    CampaignService.fetchUserCampaigns apiKey env walletAddress w =
      (Except.ok (match env w.requests.length with
        | FetchOutcome.networkError m =>
            (⟨false, none, some (strOr m "Failed to fetch user campaigns")⟩ : CampaignsResult)
        | FetchOutcome.httpError st _ =>
            ⟨false, none, some (strOr ("Failed to fetch user campaigns (" ++ toString st ++ ")")
               "Failed to fetch user campaigns")⟩
        | FetchOutcome.ok _ none =>
            ⟨false, none, some (strOr jsonErrMsg "Failed to fetch user campaigns")⟩
        | FetchOutcome.ok _ (some data) => ⟨true, data.campaigns, none⟩),
       afterReq w ⟨"/users/" ++ walletAddress ++ "/campaigns", "GET",
         CampaignService.headersFor apiKey w.store⟩) := by
  cases h : env w.requests.length with
  | ok st b =>
      cases b <;>
        simp [CampaignService.fetchUserCampaigns, CampaignService.getHeaders,
          CampaignService.headersFor, AuthService.checkAuthStatus, JsM.tryCatch,
          JsM.bind, JsM.pure, JsM.throwJs, doFetch, jsonOf, afterReq, h]
  | httpError st b =>
      simp [CampaignService.fetchUserCampaigns, CampaignService.getHeaders,
        CampaignService.headersFor, AuthService.checkAuthStatus, JsM.tryCatch,
        JsM.bind, JsM.pure, JsM.throwJs, doFetch, jsonOf, afterReq, h]
  | networkError m =>
      simp [CampaignService.fetchUserCampaigns, CampaignService.getHeaders,
        CampaignService.headersFor, AuthService.checkAuthStatus, JsM.tryCatch,
        JsM.bind, JsM.pure, JsM.throwJs, doFetch, jsonOf, afterReq, h]

theorem WLDPaymentService.donateWLD_run (worldAppApi amplifyApi : Option String)
    (env : NetEnv) (campaignId : String) (amount : ℚ) (txHash : String) (w : W) :
    WLDPaymentService.donateWLD worldAppApi amplifyApi env campaignId amount txHash w =
      (if truthyStr amplifyApi then
        (Except.ok (match env w.requests.length with
          | FetchOutcome.networkError m =>
              (⟨false, some (strOr m "Failed to donate WLD")⟩ : SimpleResult)
          | FetchOutcome.httpError st b =>
              ⟨false, some (strOr (messageOr (b.getD (msgOnlyBody "Failed to record donation"))
                 "Failed to record donation") "Failed to donate WLD")⟩
          | FetchOutcome.ok _ none =>
              ⟨false, some (strOr jsonErrMsg "Failed to donate WLD")⟩
          | FetchOutcome.ok _ (some _) => ⟨true, none⟩),
         afterReq w ⟨"/campaigns/" ++ campaignId ++ "/donate", "POST",
           WLDPaymentService.headersFor worldAppApi w.store⟩)
      else
        (Except.ok ⟨false,
           some (strOr "Backend API URL is not configured" "Failed to donate WLD")⟩, w)) := by
  by_cases ha : truthyStr amplifyApi = true
  · cases h : env w.requests.length with
    | ok st b =>
        cases b <;>
          simp [WLDPaymentService.donateWLD, WLDPaymentService.getApiBase,
            WLDPaymentService.getHeaders, WLDPaymentService.headersFor,
            AuthService.checkAuthStatus, JsM.tryCatch, JsM.bind, JsM.pure, JsM.throwJs,
            doFetch, jsonOf, jsonOrMsg, afterReq, h, ha]
    | httpError st b =>
        cases b <;>
          simp [WLDPaymentService.donateWLD, WLDPaymentService.getApiBase,
            WLDPaymentService.getHeaders, WLDPaymentService.headersFor,
            AuthService.checkAuthStatus, JsM.tryCatch, JsM.bind, JsM.pure, JsM.throwJs,
            doFetch, jsonOf, jsonOrMsg, afterReq, h, ha]
    | networkError m =>
        simp [WLDPaymentService.donateWLD, WLDPaymentService.getApiBase,
          WLDPaymentService.getHeaders, WLDPaymentService.headersFor,
          AuthService.checkAuthStatus, JsM.tryCatch, JsM.bind, JsM.pure, JsM.throwJs,
          doFetch, jsonOf, jsonOrMsg, afterReq, h, ha]
  · simp [WLDPaymentService.donateWLD, WLDPaymentService.getApiBase,
      JsM.tryCatch, JsM.bind, JsM.pure, JsM.throwJs, ha]

end WF

namespace WF

/-- C8: for every campaign with `goal > 0` and `raised ≥ 0`, the
progress percentage displayed by `CampaignCard`, `CampaignDetail` and
`CampaignTracker` equals `min (round (100 * raised / goal)) 100`, never
exceeds 100, and is monotone non-decreasing in `raised` for a fixed
goal. -/
theorem claimC8_progressPercentage (g r r₁ r₂ : ℚ) (hg : 0 < g) (hr : 0 ≤ r)
    (hr₁ : 0 ≤ r₁) (h12 : r₁ ≤ r₂) :
    (CampaignCard.progressPercentage ⟨g, r⟩ = min (round (100 * r / g)) 100 ∧
     CampaignTracker.progressPercentage ⟨g, r⟩ = min (round (100 * r / g)) 100 ∧
     CampaignDetail.progressPercentage ⟨g, r⟩ = min (round (100 * r / g)) 100) ∧
    (CampaignCard.progressPercentage ⟨g, r⟩ ≤ 100 ∧
     CampaignTracker.progressPercentage ⟨g, r⟩ ≤ 100 ∧
     CampaignDetail.progressPercentage ⟨g, r⟩ ≤ 100) ∧
    (CampaignCard.progressPercentage ⟨g, r₁⟩ ≤ CampaignCard.progressPercentage ⟨g, r₂⟩ ∧
     CampaignTracker.progressPercentage ⟨g, r₁⟩ ≤ CampaignTracker.progressPercentage ⟨g, r₂⟩ ∧
     CampaignDetail.progressPercentage ⟨g, r₁⟩ ≤ CampaignDetail.progressPercentage ⟨g, r₂⟩) := by
  have hform : r / g * 100 = 100 * r / g := by ring
  have hmono : round (r₁ / g * 100) ≤ round (r₂ / g * 100) := by
    rw [round_eq, round_eq]
    apply Int.floor_mono
    have : r₁ / g ≤ r₂ / g := by gcongr
    linarith
  refine ⟨⟨?_, ?_, ?_⟩, ⟨?_, ?_, ?_⟩, ⟨?_, ?_, ?_⟩⟩ <;>
    simp only [CampaignCard.progressPercentage, CampaignTracker.progressPercentage,
      CampaignDetail.progressPercentage, hform] <;>
    first
      | rfl
      | exact min_le_right _ _
      | exact min_le_min hmono le_rfl

/-- Witness for C8 at goal 2 and raised values 1, 0, 1. -/
theorem claimC8_progressPercentage_witness :
    (CampaignCard.progressPercentage ⟨2, 1⟩ = min (round ((100 : ℚ) * 1 / 2)) 100 ∧
     CampaignTracker.progressPercentage ⟨2, 1⟩ = min (round ((100 : ℚ) * 1 / 2)) 100 ∧
     CampaignDetail.progressPercentage ⟨2, 1⟩ = min (round ((100 : ℚ) * 1 / 2)) 100) ∧
    (CampaignCard.progressPercentage ⟨2, 1⟩ ≤ 100 ∧
     CampaignTracker.progressPercentage ⟨2, 1⟩ ≤ 100 ∧
     CampaignDetail.progressPercentage ⟨2, 1⟩ ≤ 100) ∧
    (CampaignCard.progressPercentage ⟨2, 0⟩ ≤ CampaignCard.progressPercentage ⟨2, 1⟩ ∧
     CampaignTracker.progressPercentage ⟨2, 0⟩ ≤ CampaignTracker.progressPercentage ⟨2, 1⟩ ∧
     CampaignDetail.progressPercentage ⟨2, 0⟩ ≤ CampaignDetail.progressPercentage ⟨2, 1⟩) :=
  claimC8_progressPercentage 2 1 0 1 (by norm_num) (by norm_num) (by norm_num) (by norm_num)

end WF

namespace WF

/-- C5: at most one in-flight request sequence per user action: while a
wallet-auth attempt is in progress `window.__triggerWalletAuth` returns
`false` immediately without acting, `handleConnectWallet` returns
without acting when a connection attempt or auth loading is underway,
and the donation and campaign forms disable their submit buttons while
a request is in flight. -/
theorem claimC5_singleInFlight :
    (∀ (apiKey : Option String) (env : NetEnv) (mk : MiniKitEnv)
       (parseMsg : String → Option (Option String)) (w : W),
       windowTriggerWalletAuth true apiKey env mk parseMsg w = (false, w)) ∧
    (∀ (c l dev hwt wip : Bool) (apiKey : Option String) (env : NetEnv)
       (mk : MiniKitEnv) (parseMsg : String → Option (Option String)) (w : W),
       (c || l) = true →
       handleConnectWallet c l dev hwt wip apiKey env mk parseMsg w =
         (ConnectOutcome.skipped, w)) ∧
    (∀ b, WLDDonationForm.submitDisabled b = b) ∧
    (∀ b, EditCampaignForm.submitDisabled b = b) := by
  refine ⟨?_, ?_, fun b => rfl, fun b => rfl⟩
  · intro apiKey env mk parseMsg w
    simp [windowTriggerWalletAuth]
  · intro c l dev hwt wip apiKey env mk parseMsg w h
    simp [handleConnectWallet, h]

/-- Witness for C5: a running attempt blocks the window trigger and the
connect handler. -/
theorem claimC5_singleInFlight_witness :
    windowTriggerWalletAuth true none envNet sampleMk sampleParse emptyW = (false, emptyW) ∧
    handleConnectWallet true false false false false none envNet sampleMk sampleParse emptyW =
      (ConnectOutcome.skipped, emptyW) :=
  ⟨claimC5_singleInFlight.1 none envNet sampleMk sampleParse emptyW,
   claimC5_singleInFlight.2.1 true false false false false none envNet sampleMk sampleParse
     emptyW (by decide)⟩

/-- C4: `triggerMiniKitWalletAuth` throws on a missing or short server
nonce and otherwise passes exactly that nonce to the `walletAuth`
command; `loginWithWallet` fails before calling the verification
endpoint when the nonce extracted from the signed message is empty or
the message is invalid. -/
theorem claimC4_serverNonce :
    (∀ (mk : MiniKitEnv) (n : String), n.length < 8 →
       triggerMiniKitWalletAuth mk n =
         (Except.error "A valid server-issued nonce is required to trigger wallet auth.",
          none)) ∧
    (∀ (mk : MiniKitEnv) (n : String),
       (triggerMiniKitWalletAuth mk n).2 = none ∨
       (triggerMiniKitWalletAuth mk n).2 = some n) ∧
    (∀ (apiKey : Option String) (env : NetEnv)
       (parseMsg : String → Option (Option String)) (p : WalletPayload) (w : W),
       extractSignedNonce parseMsg p.message = Except.ok "" →
       loginWithWallet apiKey env parseMsg p w =
         (Except.error "Nonce missing in signed message from wallet", w)) ∧
    (∀ (apiKey : Option String) (env : NetEnv)
       (parseMsg : String → Option (Option String)) (p : WalletPayload) (w : W)
       (e : String),
       extractSignedNonce parseMsg p.message = Except.error e →
       loginWithWallet apiKey env parseMsg p w = (Except.error e, w)) := by
  refine ⟨?_, ?_, ?_, ?_⟩
  · intro mk n h
    simp [triggerMiniKitWalletAuth, h]
  · intro mk n
    unfold triggerMiniKitWalletAuth
    repeat' split
    all_goals simp
  · intro apiKey env parseMsg p w h
    simp [loginWithWallet, JsM.bind, JsM.ofExcept, JsM.throwJs, h]
  · intro apiKey env parseMsg p w e h
    simp [loginWithWallet, JsM.bind, JsM.ofExcept, JsM.throwJs, h]

/-- Witness for C4: a five-character nonce is rejected; a signed
message without a nonce and a missing message both fail before any
request is issued. -/
theorem claimC4_serverNonce_witness :
    ("short".length < 8 ∧
     triggerMiniKitWalletAuth sampleMk "short" =
       (Except.error "A valid server-issued nonce is required to trigger wallet auth.",
        none)) ∧
    (extractSignedNonce sampleParse payloadNoNonce.message = Except.ok "" ∧
     loginWithWallet none envNet sampleParse payloadNoNonce emptyW =
       (Except.error "Nonce missing in signed message from wallet", emptyW)) ∧
    (extractSignedNonce sampleParse (⟨"x", none, MessageVal.undef⟩ : WalletPayload).message =
       Except.error "Invalid authentication payload: message is missing" ∧
     loginWithWallet none envNet sampleParse ⟨"x", none, MessageVal.undef⟩ emptyW =
       (Except.error "Invalid authentication payload: message is missing", emptyW)) :=
  ⟨⟨by decide, claimC4_serverNonce.1 sampleMk "short" (by decide)⟩,
   ⟨rfl, claimC4_serverNonce.2.2.1 none envNet sampleParse payloadNoNonce emptyW rfl⟩,
   ⟨rfl, claimC4_serverNonce.2.2.2 none envNet sampleParse ⟨"x", none, MessageVal.undef⟩
      emptyW "Invalid authentication payload: message is missing" rfl⟩⟩

end WF


namespace WF

theorem truthyStr_ne_none {x : Option String} (h : truthyStr x = true) : x ≠ none := by
  cases x <;> simp [truthyStr] at h ⊢

theorem loginWithWallet_run (apiKey : Option String) (env : NetEnv)
    (parseMsg : String → Option (Option String)) (p : WalletPayload) (w : W) :
    loginWithWallet apiKey env parseMsg p w =
      (match extractSignedNonce parseMsg p.message with
       | Except.error e => (Except.error e, w)
       | Except.ok n =>
         if n = "" then (Except.error "Nonce missing in signed message from wallet", w)
         else
           let req : Request :=
             ⟨"/auth/verify-signature", "POST", AuthService.headersFor apiKey false w.store⟩
           match env w.requests.length with
           | FetchOutcome.networkError m =>
               (Except.error (strOr (strOr m "Network error during verification")
                  "Wallet signature verification failed"), afterReq w req)
           | FetchOutcome.httpError st b =>
               (Except.error (strOr (messageOr (b.getD emptyBody)
                  ("Verification failed (" ++ toString st ++ ")"))
                  "Wallet signature verification failed"), afterReq w req)
           | FetchOutcome.ok _ none =>
               (Except.error (strOr (strOr jsonErrMsg "Network error during verification")
                  "Wallet signature verification failed"), afterReq w req)
           | FetchOutcome.ok _ (some data) =>
               if truthyStr data.token && truthyStr data.walletAddress then
                 (Except.ok (),
                  ⟨⟨some (data.token.getD ""), some (data.walletAddress.getD "")⟩,
                   w.requests ++ [req]⟩)
               else
                 (Except.error (strOr "Token or wallet address missing from response"
                    "Wallet signature verification failed"), afterReq w req)) := by
  cases hx : extractSignedNonce parseMsg p.message with
  | error e =>
      simp [loginWithWallet, JsM.bind, JsM.ofExcept, hx]
  | ok n =>
      by_cases hn : n = ""
      · simp [loginWithWallet, JsM.bind, JsM.ofExcept, JsM.throwJs, hx, hn]
      · simp only [loginWithWallet, JsM.bind, JsM.ofExcept, hx, if_neg hn]
        rw [AuthService.verifyWalletSignature_run]
        cases h : env w.requests.length with
        | ok st b =>
            cases b with
            | none => simp [h, JsM.throwJs, strOr, afterReq]
            | some data =>
                by_cases ht : (truthyStr data.token && truthyStr data.walletAddress) = true
                · have hb := ht
                  rw [Bool.and_eq_true] at hb
                  have h1 : truthyStr data.token = true := hb.1
                  have h2 : truthyStr data.walletAddress = true := hb.2
                  simp [h, ht, h1, h2, loginCtx, storeSessionData, setTokenKey,
                    setWalletKey, JsM.bind]
                · simp [h, ht, JsM.throwJs]
        | httpError st b =>
            simp [h, JsM.throwJs]
        | networkError m =>
            simp [h, JsM.throwJs]

end WF

namespace WF

/-- C1: the handshake stores session data only at its final step:
`verifyWalletSignature` persists the session keys exactly when the
backend response is ok and carries both a truthy token and wallet
address, on any earlier failure (non-ok response, missing fields,
network error) it writes nothing and returns `success = false` with an
error; and a failed `loginWithWallet` run leaves the stored session
untouched. -/
theorem claimC1_sessionWriteOrder :
    (∀ (apiKey : Option String) (env : NetEnv) (payload : WalletPayload)
       (nonce : String) (w : W),
       ∃ r w2,
         AuthService.verifyWalletSignature apiKey env payload nonce w = (Except.ok r, w2) ∧
         (r.success = true ↔
           ∃ st data, env w.requests.length = FetchOutcome.ok st (some data) ∧
             truthyStr data.token = true ∧ truthyStr data.walletAddress = true) ∧
         (r.success = true →
           w2.store = ⟨some (r.token.getD ""), some (r.walletAddress.getD "")⟩ ∧
           r.token ≠ none ∧ r.walletAddress ≠ none) ∧
         (r.success = false → w2.store = w.store ∧ r.error ≠ none)) ∧
    (∀ (apiKey : Option String) (env : NetEnv)
       (parseMsg : String → Option (Option String)) (p : WalletPayload) (w : W)
       (e : String) (w2 : W),
       loginWithWallet apiKey env parseMsg p w = (Except.error e, w2) →
       w2.store = w.store) := by
  constructor
  · intro apiKey env payload nonce w
    rw [AuthService.verifyWalletSignature_run]
    cases h : env w.requests.length with
    | ok st b =>
        cases b with
        | none =>
            refine ⟨_, _, rfl, ?_, ?_, ?_⟩
            · simp [h]
            · intro htrue; simp at htrue
            · intro _; simp [afterReq]
        | some data =>
            by_cases hn : (truthyStr data.token && truthyStr data.walletAddress) = true
            · have hb := hn
              rw [Bool.and_eq_true] at hb
              simp only [if_pos hn]
              refine ⟨_, _, rfl, ?_, ?_, ?_⟩
              · exact iff_of_true rfl ⟨st, data, rfl, hb.1, hb.2⟩
              · intro _
                exact ⟨rfl, truthyStr_ne_none hb.1, truthyStr_ne_none hb.2⟩
              · intro hfalse; simp at hfalse
            · simp only [if_neg hn]
              refine ⟨_, _, rfl, ?_, ?_, ?_⟩
              · constructor
                · intro hfalse; simp at hfalse
                · rintro ⟨st2, data2, heq, ht, ha⟩
                  rw [FetchOutcome.ok.injEq, Option.some.injEq] at heq
                  rw [← heq.2] at ht ha
                  simp [ht, ha] at hn
              · intro htrue; simp at htrue
              · intro _; simp [afterReq]
    | httpError st b =>
        refine ⟨_, _, rfl, ?_, ?_, ?_⟩
        · simp [h]
        · intro htrue; simp at htrue
        · intro _; simp [afterReq]
    | networkError m =>
        refine ⟨_, _, rfl, ?_, ?_, ?_⟩
        · simp [h]
        · intro htrue; simp at htrue
        · intro _; simp [afterReq]
  · intro apiKey env parseMsg p w e w2 hrun
    rw [loginWithWallet_run] at hrun
    revert hrun
    cases hx : extractSignedNonce parseMsg p.message with
    | error e2 =>
        intro hrun
        injection hrun with h1 h2
        rw [← h2]
    | ok n =>
        by_cases hn : n = ""
        · subst hn
          intro hrun
          simp only [if_pos rfl] at hrun
          injection hrun with h1 h2
          rw [← h2]
        · intro hrun
          simp only [if_neg hn] at hrun
          revert hrun
          cases h : env w.requests.length with
          | ok st b =>
              cases b with
              | none =>
                  intro hrun
                  injection hrun with h1 h2
                  rw [← h2]; simp [afterReq]
              | some data =>
                  by_cases ht : (truthyStr data.token && truthyStr data.walletAddress) = true
                  · simp only [if_pos ht]
                    intro hrun
                    injection hrun with h1 h2
                    cases h1
                  · simp only [if_neg ht]
                    intro hrun
                    injection hrun with h1 h2
                    rw [← h2]; simp [afterReq]
          | httpError st b =>
              intro hrun
              injection hrun with h1 h2
              rw [← h2]; simp [afterReq]
          | networkError m =>
              intro hrun
              injection hrun with h1 h2
              rw [← h2]; simp [afterReq]

/-- Witness for C1 at a backend that answers ok with both fields. -/
theorem claimC1_sessionWriteOrder_witness :
    (∃ r w2,
      AuthService.verifyWalletSignature none envOkGood samplePayload "noncenonce" emptyW =
        (Except.ok r, w2) ∧
      (r.success = true ↔
        ∃ st data, envOkGood emptyW.requests.length = FetchOutcome.ok st (some data) ∧
          truthyStr data.token = true ∧ truthyStr data.walletAddress = true) ∧
      (r.success = true →
        w2.store = ⟨some (r.token.getD ""), some (r.walletAddress.getD "")⟩ ∧
        r.token ≠ none ∧ r.walletAddress ≠ none) ∧
      (r.success = false → w2.store = emptyW.store ∧ r.error ≠ none)) ∧
    (loginWithWallet none envNet sampleParse payloadNoNonce emptyW =
        (Except.error "Nonce missing in signed message from wallet", emptyW) →
      emptyW.store = emptyW.store) :=
  ⟨claimC1_sessionWriteOrder.1 none envOkGood samplePayload "noncenonce" emptyW,
   fun h => claimC1_sessionWriteOrder.2 none envNet sampleParse payloadNoNonce emptyW
     "Nonce missing in signed message from wallet" emptyW h⟩

end WF

namespace WF

theorem truthyStr_iff {x : Option String} :
    truthyStr x = true ↔ ∃ s, x = some s ∧ s ≠ "" := by
  cases x <;> simp [truthyStr]

/-- C9 (amended): both session keys are always written and cleared as a
pair — `storeSessionData` and a successful `verifyWalletSignature` set
both, `clearStoredSessionData` and `AuthService.logout` remove both —
and `checkAuthStatus` reports `isAuthenticated = true` exactly when
both keys are present with non-empty values. -/
theorem claimC9_sessionKeyPairing :
    (∀ (t a : String) (w : W),
       storeSessionData t a w = (Except.ok (), ⟨⟨some t, some a⟩, w.requests⟩)) ∧
    (∀ w : W, clearStoredSessionData w = (Except.ok (), ⟨⟨none, none⟩, w.requests⟩)) ∧
    (∀ w : W, AuthService.logout w = (Except.ok ⟨true, none⟩, ⟨⟨none, none⟩, w.requests⟩)) ∧
    (∀ (apiKey : Option String) (env : NetEnv) (p : WalletPayload) (n : String)
       (w : W) (r : VerifyResult) (w2 : W),
       AuthService.verifyWalletSignature apiKey env p n w = (Except.ok r, w2) →
       r.success = true → ∃ t a, w2.store = ⟨some t, some a⟩) ∧
    (∀ w : W,
       AuthService.checkAuthStatus w =
         (Except.ok ⟨truthyStr w.store.sessionToken && truthyStr w.store.walletAddr,
            orNull w.store.sessionToken, orNull w.store.walletAddr⟩, w) ∧
       ((truthyStr w.store.sessionToken && truthyStr w.store.walletAddr) = true ↔
         (∃ t, w.store.sessionToken = some t ∧ t ≠ "") ∧
         (∃ a, w.store.walletAddr = some a ∧ a ≠ ""))) := by
  refine ⟨?_, ?_, ?_, ?_, ?_⟩
  · intro t a w
    simp [storeSessionData, setTokenKey, setWalletKey, JsM.bind]
  · intro w
    simp [clearStoredSessionData, removeSessionKeys]
  · intro w
    exact AuthService.logout_run w
  · intro apiKey env p n w r w2 hrun hsucc
    rw [AuthService.verifyWalletSignature_run] at hrun
    revert hrun
    cases h : env w.requests.length with
    | ok st b =>
        cases b with
        | none =>
            intro hrun
            injection hrun with h1 h2
            injection h1 with h1
            rw [← h1] at hsucc
            simp at hsucc
        | some data =>
            by_cases ht : (truthyStr data.token && truthyStr data.walletAddress) = true
            · simp only [if_pos ht]
              intro hrun
              injection hrun with h1 h2
              rw [← h2]
              exact ⟨_, _, rfl⟩
            · simp only [if_neg ht]
              intro hrun
              injection hrun with h1 h2
              injection h1 with h1
              rw [← h1] at hsucc
              simp at hsucc
    | httpError st b =>
        intro hrun
        injection hrun with h1 h2
        injection h1 with h1
        rw [← h1] at hsucc
        simp at hsucc
    | networkError m =>
        intro hrun
        injection hrun with h1 h2
        injection h1 with h1
        rw [← h1] at hsucc
        simp at hsucc
  · intro w
    refine ⟨AuthService.checkAuthStatus_run w, ?_⟩
    rw [Bool.and_eq_true, truthyStr_iff, truthyStr_iff]

/-- Counterexample to C9 as stated: with the token key present but
holding the empty string, both keys are present yet `checkAuthStatus`
reports `isAuthenticated = false`. -/
theorem claimC9_sessionKeyPairing_counterexample :
    (AuthService.checkAuthStatus ⟨⟨some "", some "0xabc"⟩, []⟩).1 =
      Except.ok ⟨false, none, some "0xabc"⟩ ∧
    (⟨some "", some "0xabc"⟩ : Store).sessionToken ≠ none ∧
    (⟨some "", some "0xabc"⟩ : Store).walletAddr ≠ none :=
  ⟨rfl, by decide, by decide⟩

/-- Witness for C9 on a stored successful verification. -/
theorem claimC9_sessionKeyPairing_witness :
    (∃ t a, (AuthService.verifyWalletSignature none envOkGood samplePayload "noncenonce"
        emptyW).2.store = ⟨some t, some a⟩) ∧
    storeSessionData "t" "a" emptyW = (Except.ok (), ⟨⟨some "t", some "a"⟩, []⟩) := by
  constructor
  · exact claimC9_sessionKeyPairing.2.2.2.1 none envOkGood samplePayload "noncenonce"
      emptyW ⟨true, some "tok", some "0xabc", none⟩
      ⟨⟨some "tok", some "0xabc"⟩, [⟨"/auth/verify-signature", "POST",
        [("Content-Type", "application/json")]⟩]⟩ rfl rfl
  · exact claimC9_sessionKeyPairing.1 "t" "a" emptyW

end WF

namespace WF

/-- C7 (amended): on an HTTP-ok response the only validation applied to
response data is field truthiness — `getNonce` fails exactly when the
body's `nonce` field is absent or empty, `verifyWalletSignature` fails
exactly when `token` or `walletAddress` is absent or empty, and in the
remaining cases the fields are passed through unchanged. -/
theorem claimC7_presenceChecks :
    (∀ (apiKey : Option String) (env : NetEnv) (w : W) (st : Nat) (b : JsonBody),
       env w.requests.length = FetchOutcome.ok st (some b) →
       ∃ r w2, AuthService.getNonce apiKey env w = (Except.ok r, w2) ∧
         (r.success = false ↔ truthyStr b.nonce = false) ∧
         (r.success = false → r.error ≠ none) ∧
         (r.success = true → r.nonce = b.nonce)) ∧
    (∀ (apiKey : Option String) (env : NetEnv) (payload : WalletPayload)
       (nonce : String) (w : W) (st : Nat) (b : JsonBody),
       env w.requests.length = FetchOutcome.ok st (some b) →
       ∃ r w2,
         AuthService.verifyWalletSignature apiKey env payload nonce w = (Except.ok r, w2) ∧
         (r.success = false ↔
           ¬(truthyStr b.token = true ∧ truthyStr b.walletAddress = true)) ∧
         (r.success = false → r.error ≠ none) ∧
         (r.success = true → r.token = b.token ∧ r.walletAddress = b.walletAddress)) := by
  constructor
  · intro apiKey env w st b h
    rw [AuthService.getNonce_run]
    simp only [h]
    by_cases hb : truthyStr b.nonce = true
    · simp only [if_pos hb]
      refine ⟨_, _, rfl, ?_, ?_, ?_⟩
      · simp [hb]
      · intro hfalse; simp at hfalse
      · intro _; rfl
    · simp only [if_neg hb]
      refine ⟨_, _, rfl, ?_, ?_, ?_⟩
      · simp at hb
        simp [hb]
      · intro _; simp
      · intro htrue; simp at htrue
  · intro apiKey env payload nonce w st b h
    rw [AuthService.verifyWalletSignature_run]
    simp only [h]
    by_cases hb : (truthyStr b.token && truthyStr b.walletAddress) = true
    · have hc := hb
      rw [Bool.and_eq_true] at hc
      simp only [if_pos hb]
      refine ⟨_, _, rfl, ?_, ?_, ?_⟩
      · simp [hc.1, hc.2]
      · intro hfalse; simp at hfalse
      · intro _; exact ⟨rfl, rfl⟩
    · have hc := hb
      rw [Bool.and_eq_true] at hc
      simp only [if_neg hb]
      refine ⟨_, _, rfl, ?_, ?_, ?_⟩
      · simp [hc]
      · intro _; simp
      · intro htrue; simp at htrue

/-- Counterexample to C7 as stated: an ok response whose body carries a
`nonce` field holding the empty string still fails, although the field
is present. -/
theorem claimC7_presenceChecks_counterexample :
    (AuthService.getNonce none envOkEmptyNonce emptyW).1 =
      Except.ok ⟨false, none, some "Nonce not found in response"⟩ ∧
    bodyEmptyNonce.nonce ≠ none :=
  ⟨rfl, by decide⟩

/-- Witness for C7 at an ok response with all fields populated. -/
theorem claimC7_presenceChecks_witness :
    ∃ r w2, AuthService.getNonce none envOkGood emptyW = (Except.ok r, w2) ∧
      (r.success = false ↔ truthyStr bodyGood.nonce = false) ∧
      (r.success = false → r.error ≠ none) ∧
      (r.success = true → r.nonce = bodyGood.nonce) :=
  claimC7_presenceChecks.1 none envOkGood emptyW 200 bodyGood rfl

end WF



namespace WF

/-- C10 (amended): `verifyToken` accepts exactly the tokens of
`tokenClaimValid` — three parts with a non-empty middle that decodes
and parses, a truthy (non-zero) `exp` not in the past, and a non-empty
`walletAddress` — returning that `walletAddress` on success and a
string error without throwing in every failure case. -/
theorem claimC10_verifyToken :
    ∀ (atobFn : String → Option String) (parseJwt : String → Option JwtPayload)
      (now : Int) (token : String),
      ((AuthService.verifyToken atobFn parseJwt now token).isValid = true ↔
        tokenClaimValid atobFn parseJwt now token) ∧
      ((AuthService.verifyToken atobFn parseJwt now token).isValid = false →
        (AuthService.verifyToken atobFn parseJwt now token).error ≠ none) ∧
      (∀ (mid d : String) (p : JwtPayload),
        (splitDot token)[1]? = some mid → atobFn mid = some d → parseJwt d = some p →
        (AuthService.verifyToken atobFn parseJwt now token).isValid = true →
        (AuthService.verifyToken atobFn parseJwt now token).walletAddress =
          p.walletAddress) := by
  intro atobFn parseJwt now token
  unfold AuthService.verifyToken
  by_cases h3 : (splitDot token).length = 3
  · have h13 : 1 < (splitDot token).length := by omega
    obtain ⟨mid, hmid⟩ : ∃ mid, (splitDot token)[1]? = some mid :=
      ⟨_, List.getElem?_eq_getElem h13⟩
    simp only [h3, ne_eq, not_true_eq_false, if_false, hmid]
    by_cases hme : mid = ""
    · simp only [if_pos hme]
      refine ⟨?_, ?_, ?_⟩
      · simp [tokenClaimValid, hmid, hme]
      · intro _; simp
      · intro mid' d' p' h1 _ _ hval; simp at hval
    · simp only [if_neg hme]
      cases hat : atobFn mid with
      | none =>
          dsimp only
          refine ⟨?_, ?_, ?_⟩
          · simp [tokenClaimValid, h3, hmid, hme, hat]
          · intro _; simp
          · intro mid' d' p' h1 h2 _ hval
            injection h1 with h1
            rw [← h1, hat] at h2
            cases h2
      | some d =>
          dsimp only
          cases hp : parseJwt d with
          | none =>
              dsimp only
              refine ⟨?_, ?_, ?_⟩
              · simp [tokenClaimValid, h3, hmid, hme, hat, hp]
              · intro _; simp
              · intro mid' d' p' h1 h2 h2' hval
                injection h1 with h1
                rw [← h1, hat] at h2
                injection h2 with h2
                rw [← h2, hp] at h2'
                cases h2'
          | some p =>
              dsimp only
              have hpin : ∀ (mid' d' : String) (p' : JwtPayload),
                  some mid = some mid' → atobFn mid' = some d' →
                  parseJwt d' = some p' → p' = p := by
                intro mid' d' p' h1 h2 h2'
                injection h1 with h1
                rw [← h1, hat] at h2
                injection h2 with h2
                rw [← h2, hp] at h2'
                injection h2' with h2'
                exact h2'.symm
              cases hpe : p.exp with
              | none =>
                  dsimp only
                  rw [if_neg (by simp)]
                  by_cases hw : truthyStr p.walletAddress = true
                  · rw [if_pos hw]
                    refine ⟨?_, ?_, ?_⟩
                    · rw [truthyStr_iff] at hw
                      simp [tokenClaimValid, h3, hmid, hme, hat, hp, hpe, hw]
                    · intro hfalse; simp at hfalse
                    · intro mid' d' p' h1 h2 h2' _
                      rw [hpin mid' d' p' h1 h2 h2']
                  · rw [if_neg hw]
                    refine ⟨?_, ?_, ?_⟩
                    · rw [truthyStr_iff] at hw
                      simp [tokenClaimValid, h3, hmid, hme, hat, hp, hpe]
                      intro a ha
                      by_contra hne
                      exact hw ⟨a, ha, hne⟩
                    · intro _; simp
                    · intro mid' d' p' h1 h2 h2' hval; simp at hval
              | some e =>
                  dsimp only
                  by_cases he0 : e = 0
                  · subst he0
                    rw [if_neg (by simp)]
                    by_cases hw : truthyStr p.walletAddress = true
                    · rw [if_pos hw]
                      refine ⟨?_, ?_, ?_⟩
                      · rw [truthyStr_iff] at hw
                        simp [tokenClaimValid, h3, hmid, hme, hat, hp, hpe, hw]
                      · intro hfalse; simp at hfalse
                      · intro mid' d' p' h1 h2 h2' _
                        rw [hpin mid' d' p' h1 h2 h2']
                    · rw [if_neg hw]
                      refine ⟨?_, ?_, ?_⟩
                      · rw [truthyStr_iff] at hw
                        simp [tokenClaimValid, h3, hmid, hme, hat, hp, hpe]
                        intro a ha
                        by_contra hne
                        exact hw ⟨a, ha, hne⟩
                      · intro _; simp
                      · intro mid' d' p' h1 h2 h2' hval; simp at hval
                  · by_cases hlt : e * 1000 < now
                    · rw [if_pos (by simp [he0, hlt])]
                      refine ⟨?_, ?_, ?_⟩
                      · simp only [tokenClaimValid, h3, hmid, hme, hat, hp, hpe]
                        constructor
                        · intro hfalse; simp at hfalse
                        · rintro ⟨-, mid', hm', -, d', hd', p', hp', hexp, -⟩
                          injection hm' with hm'
                          rw [← hm', hat] at hd'
                          injection hd' with hd'
                          rw [← hd', hp] at hp'
                          injection hp' with hp'
                          have := hexp e (by rw [← hp', hpe])
                          rcases this with h0 | hle
                          · exact absurd h0 he0
                          · omega
                      · intro _; simp
                      · intro mid' d' p' h1 h2 h2' hval; simp at hval
                    · rw [if_neg (by simp [he0, hlt])]
                      by_cases hw : truthyStr p.walletAddress = true
                      · rw [if_pos hw]
                        refine ⟨?_, ?_, ?_⟩
                        · rw [truthyStr_iff] at hw
                          simp [tokenClaimValid, h3, hmid, hme, hat, hp, hpe, hw]
                          omega
                        · intro hfalse; simp at hfalse
                        · intro mid' d' p' h1 h2 h2' _
                          rw [hpin mid' d' p' h1 h2 h2']
                      · rw [if_neg hw]
                        refine ⟨?_, ?_, ?_⟩
                        · rw [truthyStr_iff] at hw
                          simp [tokenClaimValid, h3, hmid, hme, hat, hp, hpe]
                          intro hexp a ha
                          by_contra hne
                          exact hw ⟨a, ha, hne⟩
                        · intro _; simp
                        · intro mid' d' p' h1 h2 h2' hval; simp at hval
  · have hne : (splitDot token).length ≠ 3 := h3
    simp only [ne_eq, hne, not_false_eq_true, if_true]
    refine ⟨?_, ?_, ?_⟩
    · simp [tokenClaimValid, h3]
    · intro _; simp
    · intro mid' d' p' h1 _ _ hval; simp at hval

end WF

namespace WF

/-- Counterexample to C10 as stated: a token whose payload has
`exp = 0` (present, in the past) is accepted by `verifyToken` because
JavaScript truthiness skips the zero expiry, so the claimed
equivalence with `tokenClaimValidOrig` fails at `now = 1`. -/
theorem claimC10_verifyToken_counterexample :
    (AuthService.verifyToken atobId parseJwtZeroExp 1 "h.p.s").isValid = true ∧
    ¬ tokenClaimValidOrig atobId parseJwtZeroExp 1 "h.p.s" := by
  constructor
  · rfl
  · rintro ⟨h3, mid, hmid, d, hat, p, hp, hexp, a, ha⟩
    have hsplit : (splitDot "h.p.s")[1]? = some "p" := rfl
    rw [hsplit] at hmid
    injection hmid with hmid
    rw [← hmid] at hat
    have hat' : some "p" = some d := hat
    injection hat' with hat'
    rw [← hat'] at hp
    have hp' : some (⟨some 0, some "0xabc"⟩ : JwtPayload) = some p := hp
    injection hp' with hp'
    have := hexp 0 (by rw [← hp'])
    omega

/-- Witness for C10: the amended theorem applied to the zero-expiry
token, returning the payload's wallet address. -/
theorem claimC10_verifyToken_witness :
    (AuthService.verifyToken atobId parseJwtZeroExp 1 "h.p.s").walletAddress =
      (⟨some 0, some "0xabc"⟩ : JwtPayload).walletAddress :=
  (claimC10_verifyToken atobId parseJwtZeroExp 1 "h.p.s").2.2 "p" "p"
    ⟨some 0, some "0xabc"⟩ rfl rfl rfl rfl

end WF

namespace WF

/-- C6: no retry policy — a single invocation of any service method
performs at most one fetch, so a failed request is never re-issued
within that invocation. -/
theorem claimC6_noRetry :
    ∀ (apiKey worldAppApi amplifyApi : Option String) (env : NetEnv)
      (payload : WalletPayload) (cp : CampaignPayload) (nonce id addr cid txh : String)
      (amount : ℚ) (w : W),
      (AuthService.getNonce apiKey env w).2.requests.length ≤ w.requests.length + 1 ∧
      (AuthService.verifyWalletSignature apiKey env payload nonce w).2.requests.length ≤
        w.requests.length + 1 ∧
      (AuthService.verifyWorldIdProof apiKey env w).2.requests.length ≤
        w.requests.length + 1 ∧
      (CampaignService.createCampaign apiKey env cp w).2.requests.length ≤
        w.requests.length + 1 ∧
      (CampaignService.fetchAllCampaigns apiKey env w).2.requests.length ≤
        w.requests.length + 1 ∧
      (CampaignService.fetchCampaign apiKey env id w).2.requests.length ≤
        w.requests.length + 1 ∧
      (CampaignService.updateCampaign apiKey env id w).2.requests.length ≤
        w.requests.length + 1 ∧
      (CampaignService.deleteCampaign apiKey env id w).2.requests.length ≤
        w.requests.length + 1 ∧
      (CampaignService.recordDonation apiKey env cid amount txh w).2.requests.length ≤
        w.requests.length + 1 ∧
      (CampaignService.fetchUserCampaigns apiKey env addr w).2.requests.length ≤
        w.requests.length + 1 ∧
      (WLDPaymentService.donateWLD worldAppApi amplifyApi env cid amount txh
        w).2.requests.length ≤ w.requests.length + 1 := by
  intro apiKey worldAppApi amplifyApi env payload cp nonce id addr cid txh amount w
  refine ⟨?_, ?_, ?_, ?_, ?_, ?_, ?_, ?_, ?_, ?_, ?_⟩
  · rw [AuthService.getNonce_run]; simp [afterReq]
  · rw [AuthService.verifyWalletSignature_run]
    cases h : env w.requests.length with
    | ok st b =>
        cases b with
        | none => simp [afterReq]
        | some data =>
            by_cases ht : (truthyStr data.token && truthyStr data.walletAddress) = true
            · simp [ht]
            · simp [ht, afterReq]
    | httpError st b => simp [afterReq]
    | networkError m => simp [afterReq]
  · rw [AuthService.verifyWorldIdProof_run]; simp [afterReq]
  · rw [CampaignService.createCampaign_run]; simp [afterReq]
  · rw [CampaignService.fetchAllCampaigns_run]; simp [afterReq]
  · rw [CampaignService.fetchCampaign_run]; simp [afterReq]
  · rw [CampaignService.updateCampaign_run]; simp [afterReq]
  · rw [CampaignService.deleteCampaign_run]; simp [afterReq]
  · rw [CampaignService.recordDonation_run]; simp [afterReq]
  · rw [CampaignService.fetchUserCampaigns_run]; simp [afterReq]
  · rw [WLDPaymentService.donateWLD_run]
    by_cases ha : truthyStr amplifyApi = true
    · simp [ha, afterReq]
    · simp [ha]

end WF


namespace WF

theorem orNull_none_iff {x : Option String} : orNull x = none ↔ truthyStr x = false := by
  cases x with
  | none => simp [orNull, truthyStr]
  | some s => by_cases h : s = "" <;> simp [orNull, truthyStr, h]

theorem orNull_some_iff {x : Option String} :
    (∃ t, orNull x = some t) ↔ truthyStr x = true := by
  cases x with
  | none => simp [orNull, truthyStr]
  | some s => by_cases h : s = "" <;> simp [orNull, truthyStr, h]

theorem authHeaders_contentType (k : Option String) (inc : Bool) (s : Store) :
    ("Content-Type", "application/json") ∈ AuthService.headersFor k inc s := by
  unfold AuthService.headersFor
  split <;> split <;> simp

theorem authHeaders_apiKey (k : Option String) (inc : Bool) (s : Store) :
    (∃ v, ("x-api-key", v) ∈ AuthService.headersFor k inc s) ↔ truthyStr k = true := by
  unfold AuthService.headersFor
  by_cases hk : truthyStr k = true <;> split <;> split <;> simp_all

theorem authHeaders_noAuth (k : Option String) (s : Store) :
    ¬ ∃ v, ("Authorization", v) ∈ AuthService.headersFor k false s := by
  unfold AuthService.headersFor
  split <;> split <;> simp_all

theorem authHeaders_auth (k : Option String) (s : Store) :
    (∃ v, ("Authorization", v) ∈ AuthService.headersFor k true s) ↔
      truthyStr s.sessionToken = true := by
  unfold AuthService.headersFor
  by_cases ht : truthyStr s.sessionToken = true <;> split <;> split <;> simp_all

theorem campaignHeaders_contentType (k : Option String) (s : Store) :
    ("Content-Type", "application/json") ∈ CampaignService.headersFor k s := by
  unfold CampaignService.headersFor
  split <;> split <;> simp

theorem campaignHeaders_apiKey (k : Option String) (s : Store) :
    (∃ v, ("x-api-key", v) ∈ CampaignService.headersFor k s) ↔ truthyStr k = true := by
  unfold CampaignService.headersFor
  by_cases hk : truthyStr k = true <;> split <;> split <;> simp_all

theorem campaignHeaders_auth (k : Option String) (s : Store) :
    (∃ v, ("Authorization", v) ∈ CampaignService.headersFor k s) ↔
      truthyStr s.sessionToken = true := by
  unfold CampaignService.headersFor
  cases hx : orNull s.sessionToken with
  | none =>
      have ht : truthyStr s.sessionToken = false := orNull_none_iff.mp hx
      split <;> split <;> simp_all
  | some t =>
      have ht : truthyStr s.sessionToken = true := orNull_some_iff.mp ⟨t, hx⟩
      split <;> split <;> simp_all

theorem wldHeaders_contentType (k : Option String) (s : Store) :
    ("Content-Type", "application/json") ∈ WLDPaymentService.headersFor k s := by
  unfold WLDPaymentService.headersFor
  split <;> split <;> simp

theorem wldHeaders_apiKey (k : Option String) (s : Store) :
    (∃ v, ("x-api-key", v) ∈ WLDPaymentService.headersFor k s) ↔ truthyStr k = true := by
  unfold WLDPaymentService.headersFor
  by_cases hk : truthyStr k = true <;> split <;> split <;> simp_all

theorem wldHeaders_auth (k : Option String) (s : Store) :
    (∃ v, ("Authorization", v) ∈ WLDPaymentService.headersFor k s) ↔
      truthyStr s.sessionToken = true := by
  unfold WLDPaymentService.headersFor
  cases hx : orNull s.sessionToken with
  | none =>
      have ht : truthyStr s.sessionToken = false := orNull_none_iff.mp hx
      split <;> split <;> simp_all
  | some t =>
      have ht : truthyStr s.sessionToken = true := orNull_some_iff.mp ⟨t, hx⟩
      split <;> split <;> simp_all

end WF

namespace WF

/-- C3 (amended): every request the service layer issues targets one of
the listed endpoint paths with a JSON content type; `x-api-key` is
attached exactly when the service's API key is truthy; `Authorization`
is attached exactly when a truthy session token is stored — except on
the two unauthenticated auth endpoints (`/auth/nonce`,
`/auth/verify-signature`), which never attach it. -/
theorem claimC3_requestShape :
    ∀ (apiKey worldAppApi amplifyApi : Option String) (env : NetEnv)
      (payload : WalletPayload) (cp : CampaignPayload) (nonce id addr cid txh : String)
      (amount : ℚ) (w : W) (req : Request),
      (req ∈ (AuthService.getNonce apiKey env w).2.requests →
        req ∈ w.requests ∨
          (baseReqProps apiKey req ∧ ¬ hasHeaderName req "Authorization")) ∧
      (req ∈ (AuthService.verifyWalletSignature apiKey env payload nonce w).2.requests →
        req ∈ w.requests ∨
          (baseReqProps apiKey req ∧ ¬ hasHeaderName req "Authorization")) ∧
      (req ∈ (AuthService.verifyWorldIdProof apiKey env w).2.requests →
        req ∈ w.requests ∨
          (baseReqProps apiKey req ∧
            (hasHeaderName req "Authorization" ↔
              truthyStr w.store.sessionToken = true))) ∧
      (req ∈ (CampaignService.createCampaign apiKey env cp w).2.requests →
        req ∈ w.requests ∨
          (baseReqProps apiKey req ∧
            (hasHeaderName req "Authorization" ↔
              truthyStr w.store.sessionToken = true))) ∧
      (req ∈ (CampaignService.fetchAllCampaigns apiKey env w).2.requests →
        req ∈ w.requests ∨
          (baseReqProps apiKey req ∧
            (hasHeaderName req "Authorization" ↔
              truthyStr w.store.sessionToken = true))) ∧
      (req ∈ (CampaignService.fetchCampaign apiKey env id w).2.requests →
        req ∈ w.requests ∨
          (baseReqProps apiKey req ∧
            (hasHeaderName req "Authorization" ↔
              truthyStr w.store.sessionToken = true))) ∧
      (req ∈ (CampaignService.updateCampaign apiKey env id w).2.requests →
        req ∈ w.requests ∨
          (baseReqProps apiKey req ∧
            (hasHeaderName req "Authorization" ↔
              truthyStr w.store.sessionToken = true))) ∧
      (req ∈ (CampaignService.deleteCampaign apiKey env id w).2.requests →
        req ∈ w.requests ∨
          (baseReqProps apiKey req ∧
            (hasHeaderName req "Authorization" ↔
              truthyStr w.store.sessionToken = true))) ∧
      (req ∈ (CampaignService.recordDonation apiKey env cid amount txh w).2.requests →
        req ∈ w.requests ∨
          (baseReqProps apiKey req ∧
            (hasHeaderName req "Authorization" ↔
              truthyStr w.store.sessionToken = true))) ∧
      (req ∈ (CampaignService.fetchUserCampaigns apiKey env addr w).2.requests →
        req ∈ w.requests ∨
          (baseReqProps apiKey req ∧
            (hasHeaderName req "Authorization" ↔
              truthyStr w.store.sessionToken = true))) ∧
      (req ∈ (WLDPaymentService.donateWLD worldAppApi amplifyApi env cid amount txh
          w).2.requests →
        req ∈ w.requests ∨
          (baseReqProps worldAppApi req ∧
            (hasHeaderName req "Authorization" ↔
              truthyStr w.store.sessionToken = true))) := by
  intro apiKey worldAppApi amplifyApi env payload cp nonce id addr cid txh amount w req
  refine ⟨?_, ?_, ?_, ?_, ?_, ?_, ?_, ?_, ?_, ?_, ?_⟩
  · intro hr
    rw [AuthService.getNonce_run] at hr
    rcases List.mem_append.mp hr with h | h
    · exact Or.inl h
    · rw [List.mem_singleton] at h
      subst h
      refine Or.inr ⟨⟨Or.inl rfl, authHeaders_contentType apiKey false w.store, ?_⟩, ?_⟩
      · exact authHeaders_apiKey apiKey false w.store
      · exact authHeaders_noAuth apiKey w.store
  · intro hr
    rw [AuthService.verifyWalletSignature_run] at hr
    have hr2 : req ∈ w.requests ++
        [⟨"/auth/verify-signature", "POST", AuthService.headersFor apiKey false w.store⟩] := by
      revert hr
      cases h : env w.requests.length with
      | ok st b =>
          cases b with
          | none => exact fun hr => hr
          | some data =>
              by_cases ht : (truthyStr data.token && truthyStr data.walletAddress) = true
              · simp only [if_pos ht]; exact fun hr => hr
              · simp only [if_neg ht]; exact fun hr => hr
      | httpError st b => exact fun hr => hr
      | networkError m => exact fun hr => hr
    rcases List.mem_append.mp hr2 with h | h
    · exact Or.inl h
    · rw [List.mem_singleton] at h
      subst h
      refine Or.inr ⟨⟨Or.inr (Or.inl rfl), authHeaders_contentType apiKey false w.store, ?_⟩, ?_⟩
      · exact authHeaders_apiKey apiKey false w.store
      · exact authHeaders_noAuth apiKey w.store
  · intro hr
    rw [AuthService.verifyWorldIdProof_run] at hr
    rcases List.mem_append.mp hr with h | h
    · exact Or.inl h
    · rw [List.mem_singleton] at h
      subst h
      refine Or.inr ⟨⟨Or.inr (Or.inr (Or.inl rfl)),
        authHeaders_contentType apiKey true w.store, ?_⟩, ?_⟩
      · exact authHeaders_apiKey apiKey true w.store
      · exact authHeaders_auth apiKey w.store
  · intro hr
    rw [CampaignService.createCampaign_run] at hr
    rcases List.mem_append.mp hr with h | h
    · exact Or.inl h
    · rw [List.mem_singleton] at h
      subst h
      refine Or.inr ⟨⟨Or.inr (Or.inr (Or.inr (Or.inl rfl))),
        campaignHeaders_contentType apiKey w.store, ?_⟩, ?_⟩
      · exact campaignHeaders_apiKey apiKey w.store
      · exact campaignHeaders_auth apiKey w.store
  · intro hr
    rw [CampaignService.fetchAllCampaigns_run] at hr
    rcases List.mem_append.mp hr with h | h
    · exact Or.inl h
    · rw [List.mem_singleton] at h
      subst h
      refine Or.inr ⟨⟨Or.inr (Or.inr (Or.inr (Or.inl rfl))),
        campaignHeaders_contentType apiKey w.store, ?_⟩, ?_⟩
      · exact campaignHeaders_apiKey apiKey w.store
      · exact campaignHeaders_auth apiKey w.store
  · intro hr
    rw [CampaignService.fetchCampaign_run] at hr
    rcases List.mem_append.mp hr with h | h
    · exact Or.inl h
    · rw [List.mem_singleton] at h
      subst h
      refine Or.inr ⟨⟨Or.inr (Or.inr (Or.inr (Or.inr (Or.inl ⟨id, rfl⟩)))),
        campaignHeaders_contentType apiKey w.store, ?_⟩, ?_⟩
      · exact campaignHeaders_apiKey apiKey w.store
      · exact campaignHeaders_auth apiKey w.store
  · intro hr
    rw [CampaignService.updateCampaign_run] at hr
    rcases List.mem_append.mp hr with h | h
    · exact Or.inl h
    · rw [List.mem_singleton] at h
      subst h
      refine Or.inr ⟨⟨Or.inr (Or.inr (Or.inr (Or.inr (Or.inl ⟨id, rfl⟩)))),
        campaignHeaders_contentType apiKey w.store, ?_⟩, ?_⟩
      · exact campaignHeaders_apiKey apiKey w.store
      · exact campaignHeaders_auth apiKey w.store
  · intro hr
    rw [CampaignService.deleteCampaign_run] at hr
    rcases List.mem_append.mp hr with h | h
    · exact Or.inl h
    · rw [List.mem_singleton] at h
      subst h
      refine Or.inr ⟨⟨Or.inr (Or.inr (Or.inr (Or.inr (Or.inl ⟨id, rfl⟩)))),
        campaignHeaders_contentType apiKey w.store, ?_⟩, ?_⟩
      · exact campaignHeaders_apiKey apiKey w.store
      · exact campaignHeaders_auth apiKey w.store
  · intro hr
    rw [CampaignService.recordDonation_run] at hr
    rcases List.mem_append.mp hr with h | h
    · exact Or.inl h
    · rw [List.mem_singleton] at h
      subst h
      refine Or.inr ⟨⟨Or.inr (Or.inr (Or.inr (Or.inr (Or.inr (Or.inl ⟨cid, rfl⟩))))),
        campaignHeaders_contentType apiKey w.store, ?_⟩, ?_⟩
      · exact campaignHeaders_apiKey apiKey w.store
      · exact campaignHeaders_auth apiKey w.store
  · intro hr
    rw [CampaignService.fetchUserCampaigns_run] at hr
    rcases List.mem_append.mp hr with h | h
    · exact Or.inl h
    · rw [List.mem_singleton] at h
      subst h
      refine Or.inr ⟨⟨Or.inr (Or.inr (Or.inr (Or.inr (Or.inr (Or.inr ⟨addr, rfl⟩))))),
        campaignHeaders_contentType apiKey w.store, ?_⟩, ?_⟩
      · exact campaignHeaders_apiKey apiKey w.store
      · exact campaignHeaders_auth apiKey w.store
  · intro hr
    rw [WLDPaymentService.donateWLD_run] at hr
    by_cases ha : truthyStr amplifyApi = true
    · rw [if_pos ha] at hr
      rcases List.mem_append.mp hr with h | h
      · exact Or.inl h
      · rw [List.mem_singleton] at h
        subst h
        refine Or.inr ⟨⟨Or.inr (Or.inr (Or.inr (Or.inr (Or.inr (Or.inl ⟨cid, rfl⟩))))),
          wldHeaders_contentType worldAppApi w.store, ?_⟩, ?_⟩
        · exact wldHeaders_apiKey worldAppApi w.store
        · exact wldHeaders_auth worldAppApi w.store
    · rw [if_neg ha] at hr
      exact Or.inl hr

/-- Counterexample to C3 as stated: with a session token stored,
`getNonce` still issues its request without any `Authorization`
header. -/
theorem claimC3_requestShape_counterexample :
    (AuthService.getNonce none envNet tokenW).2.requests =
      [⟨"/auth/nonce", "GET", [("Content-Type", "application/json")]⟩] ∧
    truthyStr tokenW.store.sessionToken = true := by
  constructor
  · rfl
  · decide

/-- Witness for C3: the properties of the single request `getNonce`
issues from the empty world. -/
theorem claimC3_requestShape_witness :
    ⟨"/auth/nonce", "GET", [("Content-Type", "application/json")]⟩ ∈ emptyW.requests ∨
      (baseReqProps none ⟨"/auth/nonce", "GET", [("Content-Type", "application/json")]⟩ ∧
       ¬ hasHeaderName ⟨"/auth/nonce", "GET", [("Content-Type", "application/json")]⟩
         "Authorization") :=
  (claimC3_requestShape none none none envNet samplePayload ⟨"t", none, 1, none⟩
    "n" "i" "a" "c" "x" 1 emptyW
    ⟨"/auth/nonce", "GET", [("Content-Type", "application/json")]⟩).1
    (by rw [AuthService.getNonce_run]; simp [afterReq, AuthService.headersFor, truthyStr, emptyW])

end WF

namespace WF

theorem verifyToken_error_of_invalid (atobFn : String → Option String)
    (parseJwt : String → Option JwtPayload) (now : Int) (token : String) :
    (AuthService.verifyToken atobFn parseJwt now token).isValid = false →
    (AuthService.verifyToken atobFn parseJwt now token).error ≠ none := by
  unfold AuthService.verifyToken
  dsimp only
  split
  · simp
  · split
    · simp
    · split
      · simp
      · split
        · simp
        · split
          · simp
          · split
            · simp
            · split <;> simp

end WF

namespace WF

/-- C2 (amended): no public service method ever throws — every run
returns an ok result record — and a network failure (and, where the
method parses the success body, a parse failure) is surfaced as
`success = false` with a string error; in `createCampaign`,
`updateCampaign`, `deleteCampaign` and `recordDonation` a parse
failure of an HTTP-ok body is swallowed by `.catch(() => ({}))` and
the method reports success instead. -/
theorem claimC2_errorsSurfaced :
    ∀ (apiKey worldAppApi amplifyApi : Option String) (env : NetEnv)
      (payload : WalletPayload) (cp : CampaignPayload) (nonce id addr cid txh : String)
      (amount randAmount : ℚ) (randHex : String) (nowI : Int)
      (atobFn : String → Option String) (parseJwt : String → Option JwtPayload)
      (tok : String) (w : W),
      (∃ r w2, AuthService.getNonce apiKey env w = (Except.ok r, w2) ∧
        (∀ m, env w.requests.length = FetchOutcome.networkError m →
          r.success = false ∧ r.error ≠ none) ∧
        (∀ st, env w.requests.length = FetchOutcome.ok st none →
          r.success = false ∧ r.error ≠ none)) ∧
      (∃ r w2, AuthService.verifyWalletSignature apiKey env payload nonce w =
          (Except.ok r, w2) ∧
        (∀ m, env w.requests.length = FetchOutcome.networkError m →
          r.success = false ∧ r.error ≠ none) ∧
        (∀ st, env w.requests.length = FetchOutcome.ok st none →
          r.success = false ∧ r.error ≠ none)) ∧
      (∃ r w2, AuthService.verifyWorldIdProof apiKey env w = (Except.ok r, w2) ∧
        (∀ m, env w.requests.length = FetchOutcome.networkError m →
          r.success = false ∧ r.error ≠ none)) ∧
      (∃ r w2, CampaignService.createCampaign apiKey env cp w = (Except.ok r, w2) ∧
        (∀ m, env w.requests.length = FetchOutcome.networkError m →
          r.success = false ∧ r.error ≠ none) ∧
        (∀ st, env w.requests.length = FetchOutcome.ok st none →
          r.success = true ∧ r.error = none)) ∧
      (∃ r w2, CampaignService.fetchAllCampaigns apiKey env w = (Except.ok r, w2) ∧
        (∀ m, env w.requests.length = FetchOutcome.networkError m →
          r.success = false ∧ r.error ≠ none) ∧
        (∀ st, env w.requests.length = FetchOutcome.ok st none →
          r.success = false ∧ r.error ≠ none)) ∧
      (∃ r w2, CampaignService.fetchCampaign apiKey env id w = (Except.ok r, w2) ∧
        (∀ m, env w.requests.length = FetchOutcome.networkError m →
          r.success = false ∧ r.error ≠ none) ∧
        (∀ st, env w.requests.length = FetchOutcome.ok st none →
          r.success = false ∧ r.error ≠ none)) ∧
      (∃ r w2, CampaignService.updateCampaign apiKey env id w = (Except.ok r, w2) ∧
        (∀ m, env w.requests.length = FetchOutcome.networkError m →
          r.success = false ∧ r.error ≠ none) ∧
        (∀ st, env w.requests.length = FetchOutcome.ok st none →
          r.success = true ∧ r.error = none)) ∧
      (∃ r w2, CampaignService.deleteCampaign apiKey env id w = (Except.ok r, w2) ∧
        (∀ m, env w.requests.length = FetchOutcome.networkError m →
          r.success = false ∧ r.error ≠ none) ∧
        (∀ st, env w.requests.length = FetchOutcome.ok st none →
          r.success = true ∧ r.error = none)) ∧
      (∃ r w2, CampaignService.recordDonation apiKey env cid amount txh w =
          (Except.ok r, w2) ∧
        (∀ m, env w.requests.length = FetchOutcome.networkError m →
          r.success = false ∧ r.error ≠ none) ∧
        (∀ st, env w.requests.length = FetchOutcome.ok st none →
          r.success = true ∧ r.error = none)) ∧
      (∃ r w2, CampaignService.fetchUserCampaigns apiKey env addr w = (Except.ok r, w2) ∧
        (∀ m, env w.requests.length = FetchOutcome.networkError m →
          r.success = false ∧ r.error ≠ none) ∧
        (∀ st, env w.requests.length = FetchOutcome.ok st none →
          r.success = false ∧ r.error ≠ none)) ∧
      (∃ r w2, WLDPaymentService.donateWLD worldAppApi amplifyApi env cid amount txh w =
          (Except.ok r, w2) ∧
        (truthyStr amplifyApi = true →
          (∀ m, env w.requests.length = FetchOutcome.networkError m →
            r.success = false ∧ r.error ≠ none) ∧
          (∀ st, env w.requests.length = FetchOutcome.ok st none →
            r.success = false ∧ r.error ≠ none)) ∧
        (truthyStr amplifyApi = false → r.success = false ∧ r.error ≠ none)) ∧
      (∃ r w2, AuthService.logout w = (Except.ok r, w2) ∧ r.success = true) ∧
      (∃ r w2, AuthService.checkAuthStatus w = (Except.ok r, w2)) ∧
      ((AuthService.verifyToken atobFn parseJwt nowI tok).isValid = false →
        (AuthService.verifyToken atobFn parseJwt nowI tok).error ≠ none) ∧
      ((WLDPaymentService.verifyTransaction randHex randAmount nowI txh).success = true ∧
       (WLDPaymentService.verifyTransaction randHex randAmount nowI txh).error = none) := by
  intro apiKey worldAppApi amplifyApi env payload cp nonce id addr cid txh amount
    randAmount randHex nowI atobFn parseJwt tok w
  refine ⟨?_, ?_, ?_, ?_, ?_, ?_, ?_, ?_, ?_, ?_, ?_, ?_, ?_, ?_, ?_⟩
  · rw [AuthService.getNonce_run]
    cases h : env w.requests.length with
    | networkError m =>
        exact ⟨_, _, rfl, fun m2 _ => ⟨rfl, by simp⟩,
          fun st hst => absurd hst (by simp)⟩
    | httpError st b =>
        exact ⟨_, _, rfl, fun m2 hm => absurd hm (by simp),
          fun st2 hst => absurd hst (by simp)⟩
    | ok st b =>
        cases b with
        | none =>
            exact ⟨_, _, rfl, fun m2 hm => absurd hm (by simp),
              fun st2 _ => ⟨rfl, by simp⟩⟩
        | some data =>
            by_cases hn : truthyStr data.nonce = true
            · simp only [if_pos hn]
              exact ⟨_, _, rfl, fun m2 hm => absurd hm (by simp),
                fun st2 hst => absurd hst (by simp)⟩
            · simp only [if_neg hn]
              exact ⟨_, _, rfl, fun m2 hm => absurd hm (by simp),
                fun st2 hst => absurd hst (by simp)⟩
  · rw [AuthService.verifyWalletSignature_run]
    cases h : env w.requests.length with
    | networkError m =>
        exact ⟨_, _, rfl, fun m2 _ => ⟨rfl, by simp⟩,
          fun st hst => absurd hst (by simp)⟩
    | httpError st b =>
        exact ⟨_, _, rfl, fun m2 hm => absurd hm (by simp),
          fun st2 hst => absurd hst (by simp)⟩
    | ok st b =>
        cases b with
        | none =>
            exact ⟨_, _, rfl, fun m2 hm => absurd hm (by simp),
              fun st2 _ => ⟨rfl, by simp⟩⟩
        | some data =>
            by_cases hn : (truthyStr data.token && truthyStr data.walletAddress) = true
            · simp only [if_pos hn]
              exact ⟨_, _, rfl, fun m2 hm => absurd hm (by simp),
                fun st2 hst => absurd hst (by simp)⟩
            · simp only [if_neg hn]
              exact ⟨_, _, rfl, fun m2 hm => absurd hm (by simp),
                fun st2 hst => absurd hst (by simp)⟩
  · rw [AuthService.verifyWorldIdProof_run]
    cases h : env w.requests.length with
    | networkError m => exact ⟨_, _, rfl, fun m2 _ => ⟨rfl, by simp⟩⟩
    | httpError st b =>
        exact ⟨_, _, rfl, fun m2 hm => absurd hm (by simp)⟩
    | ok st b =>
        exact ⟨_, _, rfl, fun m2 hm => absurd hm (by simp)⟩
  · rw [CampaignService.createCampaign_run]
    cases h : env w.requests.length with
    | networkError m =>
        exact ⟨_, _, rfl, fun m2 _ => ⟨rfl, by simp⟩,
          fun st hst => absurd hst (by simp)⟩
    | httpError st b =>
        exact ⟨_, _, rfl, fun m2 hm => absurd hm (by simp),
          fun st2 hst => absurd hst (by simp)⟩
    | ok st b =>
        cases b with
        | none =>
            exact ⟨_, _, rfl, fun m2 hm => absurd hm (by simp),
              fun st2 _ => ⟨rfl, rfl⟩⟩
        | some data =>
            exact ⟨_, _, rfl, fun m2 hm => absurd hm (by simp),
              fun st2 hst => absurd hst (by simp)⟩
  · rw [CampaignService.fetchAllCampaigns_run]
    cases h : env w.requests.length with
    | networkError m =>
        exact ⟨_, _, rfl, fun m2 _ => ⟨rfl, by simp⟩,
          fun st hst => absurd hst (by simp)⟩
    | httpError st b =>
        exact ⟨_, _, rfl, fun m2 hm => absurd hm (by simp),
          fun st2 hst => absurd hst (by simp)⟩
    | ok st b =>
        cases b with
        | none =>
            exact ⟨_, _, rfl, fun m2 hm => absurd hm (by simp),
              fun st2 _ => ⟨rfl, by simp⟩⟩
        | some data =>
            exact ⟨_, _, rfl, fun m2 hm => absurd hm (by simp),
              fun st2 hst => absurd hst (by simp)⟩
  · rw [CampaignService.fetchCampaign_run]
    cases h : env w.requests.length with
    | networkError m =>
        exact ⟨_, _, rfl, fun m2 _ => ⟨rfl, by simp⟩,
          fun st hst => absurd hst (by simp)⟩
    | httpError st b =>
        exact ⟨_, _, rfl, fun m2 hm => absurd hm (by simp),
          fun st2 hst => absurd hst (by simp)⟩
    | ok st b =>
        cases b with
        | none =>
            exact ⟨_, _, rfl, fun m2 hm => absurd hm (by simp),
              fun st2 _ => ⟨rfl, by simp⟩⟩
        | some data =>
            exact ⟨_, _, rfl, fun m2 hm => absurd hm (by simp),
              fun st2 hst => absurd hst (by simp)⟩
  · rw [CampaignService.updateCampaign_run]
    cases h : env w.requests.length with
    | networkError m =>
        exact ⟨_, _, rfl, fun m2 _ => ⟨rfl, by simp⟩,
          fun st hst => absurd hst (by simp)⟩
    | httpError st b =>
        exact ⟨_, _, rfl, fun m2 hm => absurd hm (by simp),
          fun st2 hst => absurd hst (by simp)⟩
    | ok st b =>
        cases b with
        | none =>
            exact ⟨_, _, rfl, fun m2 hm => absurd hm (by simp),
              fun st2 _ => ⟨rfl, rfl⟩⟩
        | some data =>
            exact ⟨_, _, rfl, fun m2 hm => absurd hm (by simp),
              fun st2 hst => absurd hst (by simp)⟩
  · rw [CampaignService.deleteCampaign_run]
    cases h : env w.requests.length with
    | networkError m =>
        exact ⟨_, _, rfl, fun m2 _ => ⟨rfl, by simp⟩,
          fun st hst => absurd hst (by simp)⟩
    | httpError st b =>
        exact ⟨_, _, rfl, fun m2 hm => absurd hm (by simp),
          fun st2 hst => absurd hst (by simp)⟩
    | ok st b =>
        cases b with
        | none =>
            exact ⟨_, _, rfl, fun m2 hm => absurd hm (by simp),
              fun st2 _ => ⟨rfl, rfl⟩⟩
        | some data =>
            exact ⟨_, _, rfl, fun m2 hm => absurd hm (by simp),
              fun st2 hst => absurd hst (by simp)⟩
  · rw [CampaignService.recordDonation_run]
    cases h : env w.requests.length with
    | networkError m =>
        exact ⟨_, _, rfl, fun m2 _ => ⟨rfl, by simp⟩,
          fun st hst => absurd hst (by simp)⟩
    | httpError st b =>
        exact ⟨_, _, rfl, fun m2 hm => absurd hm (by simp),
          fun st2 hst => absurd hst (by simp)⟩
    | ok st b =>
        cases b with
        | none =>
            exact ⟨_, _, rfl, fun m2 hm => absurd hm (by simp),
              fun st2 _ => ⟨rfl, rfl⟩⟩
        | some data =>
            exact ⟨_, _, rfl, fun m2 hm => absurd hm (by simp),
              fun st2 hst => absurd hst (by simp)⟩
  · rw [CampaignService.fetchUserCampaigns_run]
    cases h : env w.requests.length with
    | networkError m =>
        exact ⟨_, _, rfl, fun m2 _ => ⟨rfl, by simp⟩,
          fun st hst => absurd hst (by simp)⟩
    | httpError st b =>
        exact ⟨_, _, rfl, fun m2 hm => absurd hm (by simp),
          fun st2 hst => absurd hst (by simp)⟩
    | ok st b =>
        cases b with
        | none =>
            exact ⟨_, _, rfl, fun m2 hm => absurd hm (by simp),
              fun st2 _ => ⟨rfl, by simp⟩⟩
        | some data =>
            exact ⟨_, _, rfl, fun m2 hm => absurd hm (by simp),
              fun st2 hst => absurd hst (by simp)⟩
  · rw [WLDPaymentService.donateWLD_run]
    by_cases ha : truthyStr amplifyApi = true
    · simp only [if_pos ha]
      cases h : env w.requests.length with
      | networkError m =>
          exact ⟨_, _, rfl,
            fun _ => ⟨fun m2 _ => ⟨rfl, by simp⟩,
              fun st hst => absurd hst (by simp)⟩,
            fun hfalse => absurd ha (by simp [hfalse])⟩
      | httpError st b =>
          exact ⟨_, _, rfl,
            fun _ => ⟨fun m2 hm => absurd hm (by simp),
              fun st2 hst => absurd hst (by simp)⟩,
            fun hfalse => absurd ha (by simp [hfalse])⟩
      | ok st b =>
          cases b with
          | none =>
              exact ⟨_, _, rfl,
                fun _ => ⟨fun m2 hm => absurd hm (by simp),
                  fun st2 _ => ⟨rfl, by simp⟩⟩,
                fun hfalse => absurd ha (by simp [hfalse])⟩
          | some data =>
              exact ⟨_, _, rfl,
                fun _ => ⟨fun m2 hm => absurd hm (by simp),
                  fun st2 hst => absurd hst (by simp)⟩,
                fun hfalse => absurd ha (by simp [hfalse])⟩
    · simp only [if_neg ha]
      exact ⟨_, _, rfl, fun htrue => absurd htrue ha, fun _ => ⟨rfl, by simp⟩⟩
  · exact ⟨_, _, AuthService.logout_run w, rfl⟩
  · exact ⟨_, _, AuthService.checkAuthStatus_run w⟩
  · exact verifyToken_error_of_invalid atobFn parseJwt nowI tok
  · exact ⟨rfl, rfl⟩

/-- Counterexample to C2 as stated: an HTTP-ok response whose body
fails to parse makes `updateCampaign` report success with no error —
the parse failure is caught but not surfaced. -/
theorem claimC2_errorsSurfaced_counterexample :
    (CampaignService.updateCampaign none envOkNoBody "c1" emptyW).1 =
      Except.ok ⟨true, none⟩ ∧
    envOkNoBody 0 = FetchOutcome.ok 200 none :=
  ⟨rfl, rfl⟩

/-- Witness for C2: a network failure in `getNonce` is surfaced as an
unsuccessful result with an error string. -/
theorem claimC2_errorsSurfaced_witness :
    ∃ r w2, AuthService.getNonce none envNet emptyW = (Except.ok r, w2) ∧
      r.success = false ∧ r.error ≠ none := by
  obtain ⟨r, w2, hrun, hnet, -⟩ :=
    (claimC2_errorsSurfaced none none none envNet samplePayload ⟨"t", none, 1, none⟩
      "n" "i" "a" "c" "x" 1 1 "r" 0 atobId parseJwtZeroExp "t" emptyW).1
  exact ⟨r, w2, hrun, hnet "boom" rfl⟩

end WF
